import Mathlib

/-!
Shallow embedding of the PCOS prediction backend
(`backend/app.py`, `backend/app_with_auth.py`, `backend/train_model.py`,
`backend/train_lifestyle_model.py`).

Conventions of the embedding:
* Python floats are modelled by `Rat`.  The training-script expression
  `int(n_samples * 0.7)` is modelled by exact binary64 arithmetic: the
  integer is rounded to the nearest double (round to nearest, ties to
  even; exact below 2^53), multiplied by the double nearest 0.7 with one
  more such rounding, and truncated.  Exponent overflow to infinity
  (where CPython raises OverflowError, beyond about 1e308) is not
  modelled.
* HTTP handlers become pure functions from the request data, the loaded
  model state and an abstract database state to a pair
  `(status code × response body, list of database events)`.
* A database event is either the execution of a parameterized SQL
  statement (its fixed text plus the parameter values that psycopg2
  receives separately) or a `commit`.  Multiline SQL literals from the
  Python source are normalized to single spaces; single quotes inside SQL
  text are written with the escape \x27.
* The scikit-learn objects loaded from disk are opaque records of the
  methods the backend invokes on them (`transform` on the scaler;
  `predict`, `predict_proba`, `feature_importances_` on the classifier).
* psycopg2 errors are abstracted away except where a handler's control
  flow depends on them: the history SELECT fails exactly when the
  `predictions` table lacks the `prediction_result` column, and the
  save blocks of the two prediction endpoints take an explicit `saveOk`
  flag standing for "the INSERT/commit did not raise".
-/

/-- One recommendation object built by generate_recommendations. -/
structure Rec where
  category : String
  priority : String
  title : String
  description : String
  actions : List String
deriving DecidableEq

/-- A parameter value handed to psycopg2 alongside a SQL text. -/
inductive Param where
  | s (v : String)
  | i (v : Int)
  | q (v : Rat)
  | b (v : Bool)
  | null
  | json (v : List (String × Rat))
  | jsonRF (v : List (String × Rat × Rat))
  | jsonRecs (v : List Rec)
deriving DecidableEq

/-- Kind of a SQL statement, as needed to talk about commits. -/
inductive SqlKind where
  | select
  | insert
  | update
  | create
deriving DecidableEq

/-- A parameterized SQL statement: its fixed text and its parameters. -/
structure SqlStmt where
  kind : SqlKind
  text : String
  params : List Param
deriving DecidableEq

/-- One event on a database connection. -/
inductive DbEvent where
  | exec (s : SqlStmt)
  | commit
deriving DecidableEq

/-- Whether a statement kind is a write (INSERT/UPDATE/CREATE). -/
def isWrite : SqlKind → Bool
  | SqlKind.select => false
  | _ => true

/-- Auxiliary scan: `n` counts the write statements since the last commit. -/
def singleStmtCommitsAux : List DbEvent → Nat → Bool
  | [], _ => true
  | DbEvent.exec s :: rest, n =>
      singleStmtCommitsAux rest (if isWrite s.kind then n + 1 else n)
  | DbEvent.commit :: rest, n => (n == 1) && singleStmtCommitsAux rest 0

/-- Every commit in the trace covers exactly one preceding write statement. -/
def singleStmtCommits (t : List DbEvent) : Bool :=
  singleStmtCommitsAux t 0

/-- The SQL texts of the statements executed in a trace, in order. -/
def sqlTextsOf (t : List DbEvent) : List String :=
  t.filterMap (fun e =>
    match e with
    | DbEvent.exec s => some s.text
    | DbEvent.commit => none)

/-- A row of the `users` table (the columns the handlers read). -/
structure UserRow where
  id : Nat
  email : String
  password_hash : String
  full_name : String
deriving DecidableEq

/-- A row of the `predictions` table as returned by the history SELECT. -/
structure PredRow where
  id : Nat
  user_id : Nat
  prediction_result : Int
  probability : Rat
  risk_level : String
  input_data : List (String × Rat)
  created_at : Nat
deriving DecidableEq

/-- A row of the lifestyle_predictions table as returned by its history
SELECT (the JSONB columns carry the structures the backend inserts). -/
structure LifePredRow where
  id : Nat
  user_id : Nat
  risk_score : Rat
  risk_level : String
  confidence : Rat
  risk_factors : List (String × Rat × Rat)
  recommendations : List Rec
  created_at : Nat
  prediction_type : String
deriving DecidableEq

/-- Abstract database state: connection availability, table contents and
the schema facts that the handlers introspect at request time. -/
structure Db where
  connOk : Bool
  users : List UserRow
  hasUsernameCol : Bool
  hasAgeCol : Bool
  hasLastLoginCol : Bool
  predictionsCols : List String
  predictions : List PredRow
  lifestyle_predictions : List LifePredRow
  nextId : Nat

/-- Decoded JWT produced by `jwt.encode` in the backend. -/
structure Jwt where
  user_id : Nat
  exp : Nat
  alg : String
deriving DecidableEq

/-- jwt.encode of the payload built by register/login:
user_id plus exp = utcnow + timedelta(days=7), algorithm HS256
(time in seconds; the signing key from app config is abstracted away). -/
def jwtEncode (uid : Nat) (now : Nat) : Jwt :=
  { user_id := uid, exp := now + 7 * 86400, alg := "HS256" }

/-- Python truthiness of an optional string: None and the empty string
are falsy. -/
def truthy : Option String → Bool
  | none => false
  | some st => !(st == "")

/-- The scaler object loaded from disk, with the one method invoked on it. -/
structure Scaler where
  transform : List Rat → List Rat

/-- The classifier object loaded from disk, with the members invoked on it. -/
structure Classifier where
  predict : List Rat → Int
  predict_proba : List Rat → Rat × Rat
  feature_importances : List Rat

/-- The clinical model/scaler/feature-name globals of app.py
(each None when loading failed). -/
structure ClinicalState where
  model : Option Classifier
  scaler : Option Scaler
  feature_names : Option (List String)

/-- The lifestyle model globals of app.py. -/
structure LifestyleState where
  lifestyle_model : Option Classifier
  lifestyle_scaler : Option Scaler
  lifestyle_features : Option (List String)

/-- data.get of a JSON field holding a number. -/
def lookupField (data : List (String × Rat)) (k : String) : Option Rat :=
  (data.find? (fun kv => kv.1 == k)).map (fun kv => kv.2)

/-- Extraction of the features listed in `names` from the request body, in
order; returns the first missing name (the KeyError path). -/
def extractFeatures (data : List (String × Rat)) : List String → Except String (List Rat)
  | [] => Except.ok []
  | n :: ns =>
    match lookupField data n with
    | none => Except.error n
    | some v => (extractFeatures data ns).map (fun vs => v :: vs)

/-- Rounding to three decimal places, the model of Python round(x, 3). -/
def round3 (x : Rat) : Rat :=
  ((round (x * 1000) : Int) : Rat) / 1000

/-- The risk-level chain that appears verbatim in both the /predict and the
/lifestyle/assess handlers. -/
def riskLevelOf (p : Rat) : String :=
  if p < 3 / 10 then "Low"
  else if p < 7 / 10 then "Moderate"
  else "High"

/- SQL texts (fixed literals in the Python source). -/

def selectUserIdByEmailSql : String := "SELECT id FROM users WHERE email = %s"

def selectUserByEmailSql : String := "SELECT * FROM users WHERE email = %s"

def introUsernameColSql : String :=
  "SELECT column_name FROM information_schema.columns WHERE table_name=\x27users\x27 AND column_name=\x27username\x27"

def introAgeColSql : String :=
  "SELECT column_name FROM information_schema.columns WHERE table_name=\x27users\x27 AND column_name=\x27age\x27"

def introLastLoginColSql : String :=
  "SELECT column_name FROM information_schema.columns WHERE table_name=\x27users\x27 AND column_name=\x27last_login\x27"

def introPredictionsColsSql : String :=
  "SELECT column_name FROM information_schema.columns WHERE table_name = \x27predictions\x27 AND table_schema = \x27public\x27"

def updateLastLoginSql : String :=
  "UPDATE users SET last_login = CURRENT_TIMESTAMP WHERE id = %s"

def insertUsers5Sql : String :=
  "INSERT INTO users (email, password_hash, full_name, username, age) VALUES (%s, %s, %s, %s, %s) RETURNING id"

def insertUsers4Sql : String :=
  "INSERT INTO users (email, password_hash, full_name, username) VALUES (%s, %s, %s, %s) RETURNING id"

def insertUsers3Sql : String :=
  "INSERT INTO users (email, password_hash, full_name) VALUES (%s, %s, %s) RETURNING id"

def insertPredictionSql : String :=
  "INSERT INTO predictions (user_id, prediction_result, probability, risk_level, input_data) VALUES (%s, %s, %s, %s, %s)"

def selectHistorySql : String :=
  "SELECT id, prediction_result, probability, risk_level, input_data, created_at FROM predictions WHERE user_id = %s ORDER BY created_at DESC LIMIT 20"

def selectMeSql : String :=
  "SELECT id, email, full_name, username, age, created_at, updated_at FROM users WHERE id = %s"

def selectLifestyleHistorySql : String :=
  "SELECT id, risk_score, risk_level, confidence, risk_factors, recommendations, created_at FROM lifestyle_predictions WHERE user_id = %s AND prediction_type = \x27lifestyle\x27 ORDER BY created_at DESC LIMIT 20"

def insertUserProfileSql : String :=
  "INSERT INTO user_profiles (user_id, height, weight, bmi, family_history_pcos, family_history_diabetes) VALUES (%s, %s, %s, %s, %s, %s) ON CONFLICT (user_id) DO UPDATE SET height = EXCLUDED.height, weight = EXCLUDED.weight, bmi = EXCLUDED.bmi, updated_at = CURRENT_TIMESTAMP"

def insertLifestylePredSql : String :=
  "INSERT INTO lifestyle_predictions (user_id, risk_score, risk_level, confidence, risk_factors, recommendations, model_version, prediction_type) VALUES (%s, %s, %s, %s, %s, %s, %s, %s)"

def insertSymptomLogSql : String :=
  "INSERT INTO symptom_logs (user_id, log_date, acne_severity, hirsutism_score, hair_loss_score, fatigue_level, mood_swings, anxiety_level, sleep_quality, food_cravings, bloating, period_flow, period_active) VALUES (%s, %s, %s, %s, %s, %s, %s, %s, %s, %s, %s, %s, %s)"

def createUsersSql : String :=
  "CREATE TABLE IF NOT EXISTS users (id SERIAL PRIMARY KEY, email VARCHAR(255) UNIQUE NOT NULL, password_hash VARCHAR(255) NOT NULL, full_name VARCHAR(255), created_at TIMESTAMP DEFAULT CURRENT_TIMESTAMP, last_login TIMESTAMP)"

def createPredictionsSql : String :=
  "CREATE TABLE IF NOT EXISTS predictions (id SERIAL PRIMARY KEY, user_id INTEGER REFERENCES users(id) ON DELETE CASCADE, prediction_result INTEGER NOT NULL, probability FLOAT NOT NULL, risk_level VARCHAR(50), input_data JSONB, created_at TIMESTAMP DEFAULT CURRENT_TIMESTAMP)"

def createUserProfilesSql : String :=
  "CREATE TABLE IF NOT EXISTS user_profiles (id SERIAL PRIMARY KEY, user_id INTEGER REFERENCES users(id) ON DELETE CASCADE, height FLOAT, weight FLOAT, bmi FLOAT, family_history_pcos BOOLEAN DEFAULT FALSE, family_history_diabetes BOOLEAN DEFAULT FALSE, created_at TIMESTAMP DEFAULT CURRENT_TIMESTAMP, updated_at TIMESTAMP DEFAULT CURRENT_TIMESTAMP, UNIQUE(user_id))"

def createSymptomLogsSql : String :=
  "CREATE TABLE IF NOT EXISTS symptom_logs (id SERIAL PRIMARY KEY, user_id INTEGER REFERENCES users(id) ON DELETE CASCADE, log_date DATE NOT NULL, acne_severity INTEGER DEFAULT 0, hirsutism_score INTEGER DEFAULT 0, hair_loss_score INTEGER DEFAULT 0, fatigue_level INTEGER DEFAULT 0, mood_swings INTEGER DEFAULT 0, anxiety_level INTEGER DEFAULT 0, sleep_quality INTEGER DEFAULT 5, food_cravings INTEGER DEFAULT 0, bloating INTEGER DEFAULT 0, period_flow VARCHAR(20), period_active BOOLEAN DEFAULT FALSE, created_at TIMESTAMP DEFAULT CURRENT_TIMESTAMP)"

def createLifestylePredictionsSql : String :=
  "CREATE TABLE IF NOT EXISTS lifestyle_predictions (id SERIAL PRIMARY KEY, user_id INTEGER REFERENCES users(id) ON DELETE CASCADE, risk_score FLOAT NOT NULL, risk_level VARCHAR(20) NOT NULL, confidence FLOAT, risk_factors JSONB, recommendations JSONB, model_version VARCHAR(20), prediction_type VARCHAR(50) DEFAULT \x27lifestyle\x27, created_at TIMESTAMP DEFAULT CURRENT_TIMESTAMP)"

/-- Response of /auth/register. -/
inductive RegisterResp where
  | error (msg : String)
  | ok (message : String) (token : Jwt) (id : Nat) (email : String) (full_name : String)
deriving DecidableEq

/-- Response of /auth/login. -/
inductive LoginResp where
  | error (msg : String)
  | ok (message : String) (token : Jwt) (id : Nat) (email : String) (full_name : String)
deriving DecidableEq

/-- Response of /auth/me. -/
inductive MeResp where
  | error (msg : String)
  | ok (user : UserRow)
deriving DecidableEq

/-- Response of /predict. -/
inductive PredictResp where
  | error (msg : String)
  | errorFeatures (msg : String) (required_features : List String)
  | ok (pcos_risk : Int) (probability : Rat) (healthy_probability : Rat)
       (risk_level : String) (prediction_text : String) (confidence : Rat)
       (input_features : List (String × Rat))
deriving DecidableEq

/-- Response of /predictions/history. -/
inductive HistoryResp where
  | error (msg : String)
  | ok (predictions : List PredRow)
deriving DecidableEq

/-- Response of GET /. -/
structure HomeResp where
  message : String
  features : List String
  status : String
deriving DecidableEq

/-- One entry of the static feature_info table of /features. -/
structure FeatureInfo where
  description : String
  typical_range : String
deriving DecidableEq

/-- Response of /features. -/
inductive FeaturesResp where
  | error (msg : String)
  | ok (features : List String) (feature_info : List (String × FeatureInfo))
deriving DecidableEq

/-- Response of /health. -/
structure HealthResp where
  status : String
  model_loaded : Bool
  features_count : Nat
  database_connected : Bool
deriving DecidableEq

/-- The static feature_info dictionary of the /features handler. -/
def featureInfoTable : List (String × FeatureInfo) :=
  [("Age", { description := "Age in years", typical_range := "18-45" }),
   ("BMI", { description := "Body Mass Index", typical_range := "18-35" }),
   ("Insulin", { description := "Insulin level (μIU/mL)", typical_range := "5-25" }),
   ("Testosterone", { description := "Testosterone level (ng/dL)", typical_range := "15-85" }),
   ("LH", { description := "Luteinizing Hormone (mIU/mL)", typical_range := "2-20" }),
   ("FSH", { description := "Follicle Stimulating Hormone (mIU/mL)", typical_range := "3-12" }),
   ("Glucose", { description := "Glucose level (mg/dL)", typical_range := "70-140" }),
   ("Cholesterol", { description := "Cholesterol level (mg/dL)", typical_range := "150-250" })]

/-- Request body of /auth/register and /auth/login (JSON fields used). -/
structure AuthReq where
  email : Option String
  password : Option String
  full_name : Option String
  username : Option String
  age : Option Int
deriving DecidableEq

/-- The join-split-lower fallback: the model of
join of full_name.split() followed by lower(). -/
def removeWsLower (s : String) : String :=
  String.mk ((s.toList.filter (fun c => !c.isWhitespace)).map Char.toLower)

/-- The username fallback in register: prefer a truthy explicit username,
else the whitespace-stripped lowercase full name, else the email prefix
before the at sign. -/
def registerUsername (req : AuthReq) : String :=
  match req.username with
  | some u =>
    if u == "" then
      (if !((req.full_name.getD ("")) == "") then removeWsLower (req.full_name.getD (""))
       else String.mk ((req.email.getD ("")).toList.takeWhile (fun c => c != '@')))
    else u
  | none =>
    if !((req.full_name.getD ("")) == "") then removeWsLower (req.full_name.getD (""))
    else String.mk ((req.email.getD ("")).toList.takeWhile (fun c => c != '@'))

/-- The optional age value as a SQL parameter (None becomes NULL). -/
def ageParam : Option Int → Param
  | none => Param.null
  | some a => Param.i a

/-- The INSERT statement register executes, chosen by the runtime
introspection of the users table (the three cur.execute branches). -/
def registerInsertStmt (db : Db) (gph : String → String) (req : AuthReq) : SqlStmt :=
  if db.hasUsernameCol && db.hasAgeCol then
    SqlStmt.mk SqlKind.insert insertUsers5Sql
      [Param.s (req.email.getD ("")), Param.s (gph (req.password.getD (""))),
       Param.s (req.full_name.getD ("")), Param.s (registerUsername req), ageParam req.age]
  else if db.hasUsernameCol then
    SqlStmt.mk SqlKind.insert insertUsers4Sql
      [Param.s (req.email.getD ("")), Param.s (gph (req.password.getD (""))),
       Param.s (req.full_name.getD ("")), Param.s (registerUsername req)]
  else
    SqlStmt.mk SqlKind.insert insertUsers3Sql
      [Param.s (req.email.getD ("")), Param.s (gph (req.password.getD (""))),
       Param.s (req.full_name.getD (""))]

/-- The SQL text of the INSERT register chooses for a given schema. -/
def insertChosenSql (db : Db) : String :=
  if db.hasUsernameCol && db.hasAgeCol then insertUsers5Sql
  else if db.hasUsernameCol then insertUsers4Sql
  else insertUsers3Sql

/-- The history SELECT as executed by the database: it fails exactly when
the predictions table lacks the prediction_result column (rows are kept in
created_at-descending order by the abstract state; LIMIT 20). -/
def runHistorySelect (db : Db) (uid : Nat) : Except String (List PredRow) :=
  if db.predictionsCols.contains ("prediction_result") then
    Except.ok (((db.predictions.filter (fun p => p.user_id == uid))).take 20)
  else
    Except.error ("column does not exist")

namespace App

/-- GET / of app.py. -/
def home (st : ClinicalState) : Nat × HomeResp :=
  (200, { message := "PCOS Prediction API with Authentication",
          features := st.feature_names.getD [],
          status := if st.model.isSome then "ready" else "model not loaded" })

/-- POST /auth/register of app.py.  `gph` is werkzeug generate_password_hash,
`now` the current time in seconds. -/
def register (db : Db) (gph : String → String) (now : Nat) (req : AuthReq) :
    (Nat × RegisterResp) × List DbEvent :=
  if !(truthy req.email) || !(truthy req.password) then
    ((400, RegisterResp.error ("Email and password are required")), [])
  else if (req.password.getD ("")).length < 6 then
    ((400, RegisterResp.error ("Password must be at least 6 characters")), [])
  else if !db.connOk then
    ((500, RegisterResp.error ("Database connection failed")), [])
  else if db.users.any (fun u => u.email == req.email.getD ("")) then
    ((409, RegisterResp.error ("Email already registered")),
     [DbEvent.exec (SqlStmt.mk SqlKind.select selectUserIdByEmailSql [Param.s (req.email.getD (""))])])
  else
    ((201, RegisterResp.ok ("Registration successful") (jwtEncode db.nextId now) db.nextId
        (req.email.getD ("")) (req.full_name.getD (""))),
     [DbEvent.exec (SqlStmt.mk SqlKind.select selectUserIdByEmailSql [Param.s (req.email.getD (""))]),
      DbEvent.exec (SqlStmt.mk SqlKind.select introUsernameColSql []),
      DbEvent.exec (SqlStmt.mk SqlKind.select introAgeColSql []),
      DbEvent.exec (registerInsertStmt db gph req),
      DbEvent.commit])

/-- POST /auth/login of app.py.  `check` is werkzeug check_password_hash. -/
def login (db : Db) (check : String → String → Bool) (now : Nat) (req : AuthReq) :
    (Nat × LoginResp) × List DbEvent :=
  if !(truthy req.email) || !(truthy req.password) then
    ((400, LoginResp.error ("Email and password are required")), [])
  else if !db.connOk then
    ((500, LoginResp.error ("Database connection failed")), [])
  else
    let ev0 := DbEvent.exec (SqlStmt.mk SqlKind.select selectUserByEmailSql [Param.s (req.email.getD (""))])
    match db.users.find? (fun u => u.email == req.email.getD ("")) with
    | none => ((401, LoginResp.error ("Invalid email or password")), [ev0])
    | some u =>
      if !(check u.password_hash (req.password.getD (""))) then
        ((401, LoginResp.error ("Invalid email or password")), [ev0])
      else
        ((200, LoginResp.ok ("Login successful") (jwtEncode u.id now) u.id u.email u.full_name),
         if db.hasLastLoginCol then
           [ev0, DbEvent.exec (SqlStmt.mk SqlKind.select introLastLoginColSql []),
            DbEvent.exec (SqlStmt.mk SqlKind.update updateLastLoginSql [Param.i (Int.ofNat u.id)]),
            DbEvent.commit]
         else
           [ev0, DbEvent.exec (SqlStmt.mk SqlKind.select introLastLoginColSql [])])

/-- GET /auth/me of app.py (the SELECT of the user row is abstracted to a
row lookup; identical in both entry points). -/
def get_current_user (db : Db) (current_user_id : Nat) : Nat × MeResp :=
  if !db.connOk then
    (500, MeResp.error ("Database connection failed"))
  else
    match db.users.find? (fun u => u.id == current_user_id) with
    | none => (404, MeResp.error ("User not found"))
    | some u => (200, MeResp.ok u)

/-- POST /predict of app.py. -/
def predict (st : ClinicalState) (current_user_id : Nat) (data : List (String × Rat))
    (db : Db) (saveOk : Bool) : (Nat × PredictResp) × List DbEvent :=
  match st.model, st.scaler with
  | some model, some scaler =>
    if data.isEmpty then
      ((400, PredictResp.error ("No data provided")), [])
    else
      match extractFeatures data (st.feature_names.getD []) with
      | Except.error missing =>
        ((400, PredictResp.errorFeatures (("Missing required feature: ") ++ missing)
            (st.feature_names.getD [])), [])
      | Except.ok vals =>
        let features_scaled := scaler.transform vals
        let prediction := model.predict features_scaled
        let probabilities := model.predict_proba features_scaled
        let pcos_probability := probabilities.2
        let risk_level := riskLevelOf pcos_probability
        let resp : Nat × PredictResp :=
          (200, PredictResp.ok prediction (round3 pcos_probability)
            (round3 probabilities.1) risk_level
            (if prediction == 1 then ("PCOS Likely") else ("Healthy"))
            (round3 (max probabilities.1 probabilities.2)) data)
        let trace : List DbEvent :=
          if db.connOk then
            DbEvent.exec (SqlStmt.mk SqlKind.insert insertPredictionSql
              [Param.i (Int.ofNat current_user_id), Param.i prediction,
               Param.q pcos_probability, Param.s risk_level, Param.json data]) ::
            (if saveOk then [DbEvent.commit] else [])
          else []
        (resp, trace)
  | _, _ => ((500, PredictResp.error ("Model not loaded. Please train the model first.")), [])

/-- GET /features of app.py. -/
def get_features (st : ClinicalState) : Nat × FeaturesResp :=
  match st.feature_names with
  | none => (500, FeaturesResp.error ("Model not loaded"))
  | some ns => (200, FeaturesResp.ok ns featureInfoTable)

/-- GET /health of app.py. -/
def health_check (st : ClinicalState) (db : Db) : Nat × HealthResp :=
  (200, { status := "healthy", model_loaded := st.model.isSome,
          features_count := (st.feature_names.getD []).length,
          database_connected := db.connOk })

/-- GET /predictions/history of app.py: introspects the predictions table
first and degrades to an empty 200 when the expected column is missing or
the SELECT raises. -/
def get_prediction_history (db : Db) (current_user_id : Nat) : Nat × HistoryResp :=
  if !db.connOk then
    (500, HistoryResp.error ("Database connection failed"))
  else if db.predictionsCols.contains ("prediction_result") then
    match runHistorySelect db current_user_id with
    | Except.ok rows => (200, HistoryResp.ok rows)
    | Except.error _ => (200, HistoryResp.ok [])
  else
    (200, HistoryResp.ok [])

/-- init_db of app.py: five CREATE TABLE statements followed by a single
commit (when the connection succeeds). -/
def init_db (db : Db) : Bool × List DbEvent :=
  if !db.connOk then (false, [])
  else
    (true,
     [DbEvent.exec (SqlStmt.mk SqlKind.create createUsersSql []),
      DbEvent.exec (SqlStmt.mk SqlKind.create createPredictionsSql []),
      DbEvent.exec (SqlStmt.mk SqlKind.create createUserProfilesSql []),
      DbEvent.exec (SqlStmt.mk SqlKind.create createSymptomLogsSql []),
      DbEvent.exec (SqlStmt.mk SqlKind.create createLifestylePredictionsSql []),
      DbEvent.commit])

end App

namespace AppWithAuth

/-- GET / of app_with_auth.py (same code as app.py). -/
def home (st : ClinicalState) : Nat × HomeResp :=
  (200, { message := "PCOS Prediction API with Authentication",
          features := st.feature_names.getD [],
          status := if st.model.isSome then "ready" else "model not loaded" })

/-- POST /auth/register of app_with_auth.py (same code as app.py). -/
def register (db : Db) (gph : String → String) (now : Nat) (req : AuthReq) :
    (Nat × RegisterResp) × List DbEvent :=
  if !(truthy req.email) || !(truthy req.password) then
    ((400, RegisterResp.error ("Email and password are required")), [])
  else if (req.password.getD ("")).length < 6 then
    ((400, RegisterResp.error ("Password must be at least 6 characters")), [])
  else if !db.connOk then
    ((500, RegisterResp.error ("Database connection failed")), [])
  else if db.users.any (fun u => u.email == req.email.getD ("")) then
    ((409, RegisterResp.error ("Email already registered")),
     [DbEvent.exec (SqlStmt.mk SqlKind.select selectUserIdByEmailSql [Param.s (req.email.getD (""))])])
  else
    ((201, RegisterResp.ok ("Registration successful") (jwtEncode db.nextId now) db.nextId
        (req.email.getD ("")) (req.full_name.getD (""))),
     [DbEvent.exec (SqlStmt.mk SqlKind.select selectUserIdByEmailSql [Param.s (req.email.getD (""))]),
      DbEvent.exec (SqlStmt.mk SqlKind.select introUsernameColSql []),
      DbEvent.exec (SqlStmt.mk SqlKind.select introAgeColSql []),
      DbEvent.exec (registerInsertStmt db gph req),
      DbEvent.commit])

/-- POST /auth/login of app_with_auth.py (same code as app.py). -/
def login (db : Db) (check : String → String → Bool) (now : Nat) (req : AuthReq) :
    (Nat × LoginResp) × List DbEvent :=
  if !(truthy req.email) || !(truthy req.password) then
    ((400, LoginResp.error ("Email and password are required")), [])
  else if !db.connOk then
    ((500, LoginResp.error ("Database connection failed")), [])
  else
    let ev0 := DbEvent.exec (SqlStmt.mk SqlKind.select selectUserByEmailSql [Param.s (req.email.getD (""))])
    match db.users.find? (fun u => u.email == req.email.getD ("")) with
    | none => ((401, LoginResp.error ("Invalid email or password")), [ev0])
    | some u =>
      if !(check u.password_hash (req.password.getD (""))) then
        ((401, LoginResp.error ("Invalid email or password")), [ev0])
      else
        ((200, LoginResp.ok ("Login successful") (jwtEncode u.id now) u.id u.email u.full_name),
         if db.hasLastLoginCol then
           [ev0, DbEvent.exec (SqlStmt.mk SqlKind.select introLastLoginColSql []),
            DbEvent.exec (SqlStmt.mk SqlKind.update updateLastLoginSql [Param.i (Int.ofNat u.id)]),
            DbEvent.commit]
         else
           [ev0, DbEvent.exec (SqlStmt.mk SqlKind.select introLastLoginColSql [])])

/-- GET /auth/me of app_with_auth.py (same code as app.py). -/
def get_current_user (db : Db) (current_user_id : Nat) : Nat × MeResp :=
  if !db.connOk then
    (500, MeResp.error ("Database connection failed"))
  else
    match db.users.find? (fun u => u.id == current_user_id) with
    | none => (404, MeResp.error ("User not found"))
    | some u => (200, MeResp.ok u)

/-- POST /predict of app_with_auth.py (same code as app.py). -/
def predict (st : ClinicalState) (current_user_id : Nat) (data : List (String × Rat))
    (db : Db) (saveOk : Bool) : (Nat × PredictResp) × List DbEvent :=
  match st.model, st.scaler with
  | some model, some scaler =>
    if data.isEmpty then
      ((400, PredictResp.error ("No data provided")), [])
    else
      match extractFeatures data (st.feature_names.getD []) with
      | Except.error missing =>
        ((400, PredictResp.errorFeatures (("Missing required feature: ") ++ missing)
            (st.feature_names.getD [])), [])
      | Except.ok vals =>
        let features_scaled := scaler.transform vals
        let prediction := model.predict features_scaled
        let probabilities := model.predict_proba features_scaled
        let pcos_probability := probabilities.2
        let risk_level := riskLevelOf pcos_probability
        let resp : Nat × PredictResp :=
          (200, PredictResp.ok prediction (round3 pcos_probability)
            (round3 probabilities.1) risk_level
            (if prediction == 1 then ("PCOS Likely") else ("Healthy"))
            (round3 (max probabilities.1 probabilities.2)) data)
        let trace : List DbEvent :=
          if db.connOk then
            DbEvent.exec (SqlStmt.mk SqlKind.insert insertPredictionSql
              [Param.i (Int.ofNat current_user_id), Param.i prediction,
               Param.q pcos_probability, Param.s risk_level, Param.json data]) ::
            (if saveOk then [DbEvent.commit] else [])
          else []
        (resp, trace)
  | _, _ => ((500, PredictResp.error ("Model not loaded. Please train the model first.")), [])

/-- GET /features of app_with_auth.py (same code as app.py). -/
def get_features (st : ClinicalState) : Nat × FeaturesResp :=
  match st.feature_names with
  | none => (500, FeaturesResp.error ("Model not loaded"))
  | some ns => (200, FeaturesResp.ok ns featureInfoTable)

/-- GET /health of app_with_auth.py (same code as app.py). -/
def health_check (st : ClinicalState) (db : Db) : Nat × HealthResp :=
  (200, { status := "healthy", model_loaded := st.model.isSome,
          features_count := (st.feature_names.getD []).length,
          database_connected := db.connOk })

/-- GET /predictions/history of app_with_auth.py: no column introspection;
a failing SELECT propagates to the except clause, which returns 500. -/
def get_prediction_history (db : Db) (current_user_id : Nat) : Nat × HistoryResp :=
  if !db.connOk then
    (500, HistoryResp.error ("Database connection failed"))
  else
    match runHistorySelect db current_user_id with
    | Except.ok rows => (200, HistoryResp.ok rows)
    | Except.error e => (500, HistoryResp.error (("Failed to get history: ") ++ e))

end AppWithAuth

/-- The Weight Management recommendation. -/
def recWeight : Rec :=
  { category := "Weight Management", priority := "high",
    title := "Focus on Weight Management",
    description := "Your BMI indicates you may benefit from weight management. Even a 5-10% weight loss can significantly improve PCOS symptoms.",
    actions := ["Consult a nutritionist", "Start with 150 minutes of exercise per week", "Track your food intake"] }

/-- The Menstrual Health recommendation. -/
def recCycle : Rec :=
  { category := "Menstrual Health", priority := "high",
    title := "Track Your Menstrual Cycle",
    description := "Irregular cycles are a key PCOS symptom. Regular tracking helps identify patterns.",
    actions := ["Use our symptom tracker daily", "Note cycle length and flow", "Consult a gynecologist if cycles are consistently irregular"] }

/-- The Physical Activity recommendation. -/
def recExercise : Rec :=
  { category := "Physical Activity", priority := "medium",
    title := "Increase Physical Activity",
    description := "Regular exercise helps manage PCOS symptoms, improve insulin sensitivity, and reduce stress.",
    actions := ["Aim for 30 minutes of activity 5 days a week", "Try a mix of cardio and strength training", "Start with walking or yoga"] }

/-- The Mental Health recommendation. -/
def recStress : Rec :=
  { category := "Mental Health", priority := "high",
    title := "Manage Stress Levels",
    description := "High stress can worsen PCOS symptoms by affecting hormones.",
    actions := ["Practice meditation or mindfulness", "Ensure 7-8 hours of sleep", "Consider counseling or therapy", "Try stress-reduction techniques like yoga"] }

/-- The Sleep Hygiene recommendation. -/
def recSleep : Rec :=
  { category := "Sleep Hygiene", priority := "medium",
    title := "Improve Sleep Quality",
    description := "Poor sleep affects hormone balance and can worsen PCOS symptoms.",
    actions := ["Maintain a regular sleep schedule", "Avoid screens before bedtime", "Create a relaxing bedtime routine"] }

/-- The Symptom Management recommendation. -/
def recHirsutism : Rec :=
  { category := "Symptom Management", priority := "medium",
    title := "Address Excess Hair Growth",
    description := "Excess hair growth is a common PCOS symptom related to elevated androgens.",
    actions := ["Consult a dermatologist", "Consider treatments like laser hair removal", "Check hormone levels with your doctor"] }

/-- The Medical Consultation recommendation inserted for High risk. -/
def recConsult : Rec :=
  { category := "Medical Consultation", priority := "urgent",
    title := "Consult a Healthcare Provider",
    description := "Your assessment suggests a higher risk of PCOS. Please consult a gynecologist or endocrinologist for proper diagnosis and treatment.",
    actions := ["Schedule an appointment with a gynecologist", "Get blood tests (hormones, glucose, insulin)", "Discuss ultrasound examination if needed"] }

/-- generate_recommendations of app.py. -/
def generate_recommendations (data : List (String × Rat)) (risk_level : String) : List Rec :=
  let bmi := (lookupField data ("BMI")).getD 0
  let cycle_reg := (lookupField data ("CycleRegularity")).getD 0
  let exercise_freq := (lookupField data ("ExerciseFrequency")).getD 0
  let stress_level := (lookupField data ("StressLevel")).getD 0
  let sleep_quality := (lookupField data ("SleepQuality")).getD 10
  let hirsutism := (lookupField data ("Hirsutism")).getD 0
  let recommendations :=
    (if bmi > 25 then [recWeight] else []) ++
    (if cycle_reg ≥ 1 then [recCycle] else []) ++
    (if exercise_freq < 3 then [recExercise] else []) ++
    (if stress_level > 6 then [recStress] else []) ++
    (if sleep_quality < 5 then [recSleep] else []) ++
    (if hirsutism > 1 then [recHirsutism] else [])
  if risk_level == "High" then recConsult :: recommendations else recommendations

/-- Response of /lifestyle/assess. -/
inductive LifestyleResp where
  | error (msg : String)
  | errorFields (msg : String) (required_fields : List String)
  | ok (pcos_risk : Int) (probability : Rat) (healthy_probability : Rat)
       (risk_level : String) (prediction_text : String) (confidence : Rat)
       (risk_factors : List (String × Rat × Rat))
       (recommendations : List Rec)
       (input_features : List (String × Rat))
deriving DecidableEq

/-- Response of /lifestyle/save-symptom-log. -/
inductive MsgResp where
  | error (msg : String)
  | ok (message : String)
deriving DecidableEq

/-- Request body of /lifestyle/save-symptom-log (fields used by the handler). -/
structure SymptomLogReq where
  date : Option String
  acne : Option Int
  hirsutism : Option Int
  hairLoss : Option Int
  fatigue : Option Int
  moodChanges : Option Int
  anxiety : Option Int
  sleepQuality : Option Int
  foodCravings : Option Int
  bloating : Option Int
  periodFlow : Option String
  periodActive : Option Bool
deriving DecidableEq

namespace App

/-- POST /lifestyle/assess of app.py. -/
def lifestyle_assessment (lst : LifestyleState) (current_user_id : Nat)
    (data : List (String × Rat)) (db : Db) (saveOk : Bool) :
    (Nat × LifestyleResp) × List DbEvent :=
  match lst.lifestyle_model, lst.lifestyle_scaler with
  | some model, some scaler =>
    let names := lst.lifestyle_features.getD []
    match extractFeatures data names with
    | Except.error missing =>
      ((400, LifestyleResp.errorFields (("Missing required field: ") ++ missing) names), [])
    | Except.ok vals =>
      let features_scaled := scaler.transform vals
      let prediction := model.predict features_scaled
      let probabilities := model.predict_proba features_scaled
      let pcos_probability := probabilities.2
      let risk_level := riskLevelOf pcos_probability
      let risk_factors := (names.zip model.feature_importances).map
        (fun nf => (nf.1, ((lookupField data nf.1).getD 0, nf.2)))
      let recommendations := generate_recommendations data risk_level
      let profileEvs : List DbEvent :=
        if (lookupField data ("height")).isSome && (lookupField data ("weight")).isSome then
          [DbEvent.exec (SqlStmt.mk SqlKind.insert insertUserProfileSql
            [Param.i (Int.ofNat current_user_id),
             Param.q ((lookupField data ("height")).getD 0),
             Param.q ((lookupField data ("weight")).getD 0),
             Param.q (((lookupField data ("weight")).getD 0) /
                      ((((lookupField data ("height")).getD 0) / 100) ^ 2)),
             Param.b ((lookupField data ("FamilyHistory")).getD 0 == 1),
             Param.b false])]
        else []
      let predEv := DbEvent.exec (SqlStmt.mk SqlKind.insert insertLifestylePredSql
        [Param.i (Int.ofNat current_user_id), Param.q pcos_probability, Param.s risk_level,
         Param.q (max probabilities.1 probabilities.2),
         Param.jsonRF risk_factors, Param.jsonRecs recommendations,
         Param.s ("1.0"), Param.s ("lifestyle")])
      let trace : List DbEvent :=
        if db.connOk then
          profileEvs ++ [predEv] ++ (if saveOk then [DbEvent.commit] else [])
        else []
      ((200, LifestyleResp.ok prediction (round3 pcos_probability)
          (round3 probabilities.1) risk_level
          (if prediction == 1 then ("PCOS Risk Detected") else ("Low Risk"))
          (round3 (max probabilities.1 probabilities.2)) risk_factors recommendations data),
       trace)
  | _, _ => ((500, LifestyleResp.error ("Lifestyle model not loaded. Please train the model first.")), [])

/-- POST /lifestyle/save-symptom-log of app.py.  `today` is
datetime.now().date() rendered as a string. -/
def save_symptom_log (db : Db) (today : String) (current_user_id : Nat)
    (data : SymptomLogReq) : (Nat × MsgResp) × List DbEvent :=
  if !db.connOk then
    ((500, MsgResp.error ("Database connection failed")), [])
  else
    ((201, MsgResp.ok ("Symptom log saved successfully")),
     [DbEvent.exec (SqlStmt.mk SqlKind.insert insertSymptomLogSql
        [Param.i (Int.ofNat current_user_id), Param.s (data.date.getD today),
         Param.i (data.acne.getD 0), Param.i (data.hirsutism.getD 0),
         Param.i (data.hairLoss.getD 0), Param.i (data.fatigue.getD 0),
         Param.i (data.moodChanges.getD 0), Param.i (data.anxiety.getD 0),
         Param.i (data.sleepQuality.getD 5), Param.i (data.foodCravings.getD 0),
         Param.i (data.bloating.getD 0), Param.s (data.periodFlow.getD ("None")),
         Param.b (data.periodActive.getD false)]),
      DbEvent.commit])

end App

/-- Response of /lifestyle/prediction-history. -/
inductive LifeHistResp where
  | error (msg : String)
  | ok (predictions : List LifePredRow)
deriving DecidableEq

/-- GET /lifestyle/prediction-history of app.py (rows kept in
created_at-descending order by the abstract state; LIMIT 20). -/
def App.get_lifestyle_prediction_history (db : Db) (current_user_id : Nat) :
    (Nat × LifeHistResp) × List DbEvent :=
  if !db.connOk then
    ((500, LifeHistResp.error ("Database connection failed")), [])
  else
    ((200, LifeHistResp.ok ((db.lifestyle_predictions.filter
        (fun p => p.user_id == current_user_id && p.prediction_type == "lifestyle")).take 20)),
     [DbEvent.exec (SqlStmt.mk SqlKind.select selectLifestyleHistorySql
        [Param.i (Int.ofNat current_user_id)])])

/-- The cur.execute sequence of GET /auth/me (the handler whose response is
modelled by App.get_current_user; identical in both entry points): one
SELECT keyed by the token user id. -/
def App.get_current_user_trace (db : Db) (current_user_id : Nat) : List DbEvent :=
  if !db.connOk then []
  else
    [DbEvent.exec (SqlStmt.mk SqlKind.select selectMeSql [Param.i (Int.ofNat current_user_id)])]

/-- The cur.execute sequence of GET /predictions/history in app.py (the
handler whose response is modelled by App.get_prediction_history): the
introspection SELECT, then the history SELECT when the expected column
exists. -/
def App.get_prediction_history_trace (db : Db) (current_user_id : Nat) : List DbEvent :=
  if !db.connOk then []
  else
    DbEvent.exec (SqlStmt.mk SqlKind.select introPredictionsColsSql []) ::
    (if db.predictionsCols.contains ("prediction_result") then
       [DbEvent.exec (SqlStmt.mk SqlKind.select selectHistorySql
          [Param.i (Int.ofNat current_user_id)])]
     else [])

/-- The cur.execute sequence of GET /predictions/history in
app_with_auth.py: the history SELECT directly. -/
def AppWithAuth.get_prediction_history_trace (db : Db) (current_user_id : Nat) : List DbEvent :=
  if !db.connOk then []
  else
    [DbEvent.exec (SqlStmt.mk SqlKind.select selectHistorySql
       [Param.i (Int.ofNat current_user_id)])]

/-- The feature-name list created by both training scripts. -/
def pcosFeatureNames : List String :=
  ["Age", "BMI", "Insulin", "Testosterone", "LH", "FSH", "Glucose", "Cholesterol"]

/-- Round m / d to the nearest integer, ties to even (m, d : Nat, d > 0). -/
def roundHalfEvenDiv (m d : Nat) : Nat :=
  let q := m / d
  let r := m % d
  if 2 * r < d then q
  else if 2 * r > d then q + 1
  else if q % 2 = 0 then q else q + 1

/-- Round the natural number m to 53 significant binary digits (round to
nearest, ties to even): the result is r * 2 ^ s for the returned (r, s). -/
def round53 (m : Nat) : Nat × Nat :=
  let b := Nat.log2 m + 1
  if b ≤ 53 then (m, 0)
  else (roundHalfEvenDiv m (2 ^ (b - 53)), b - 53)

/-- The significand of the binary64 double nearest 0.7: its value is
float07num / 2 ^ 52. -/
def float07num : Nat := 3152519739159347

/-- The CPython value of int(n * 0.7): n is converted to binary64 (exact
below 2 ^ 53), multiplied by the double nearest 0.7 with one
round-to-nearest-even, and truncated toward zero. -/
def pyIntMul07 (n : Nat) : Nat :=
  let f := round53 n
  let p := round53 (f.1 * float07num)
  p.1 * 2 ^ (f.2 + p.2) / 2 ^ 52

/-- generate_synthetic_pcos_data of train_model.py.  `normal mu sigma cnt i`
stands for the i-th draw of np.random.normal(mu, sigma, cnt); column_stack
of the eight draws is built row by row.  int(n_samples * 0.7) is modelled
by the exact binary64 computation pyIntMul07 (so, e.g., 1290 samples give
902 healthy rows, not 903). -/
def generate_synthetic_pcos_data (normal : Rat → Rat → Nat → Nat → Rat)
    (n_samples : Nat) : List (List Rat) × List Nat × List String :=
  let n_healthy := pyIntMul07 n_samples
  let healthy_data := (List.range n_healthy).map (fun i =>
    [normal 28 6 n_healthy i, normal 23 3 n_healthy i, normal 12 4 n_healthy i,
     normal 35 10 n_healthy i, normal 6 2 n_healthy i, normal 7 2 n_healthy i,
     normal 90 10 n_healthy i, normal 180 30 n_healthy i])
  let n_pcos := n_samples - n_healthy
  let pcos_data := (List.range n_pcos).map (fun i =>
    [normal 26 5 n_pcos i, normal 28 5 n_pcos i, normal 18 6 n_pcos i,
     normal 55 15 n_pcos i, normal 12 4 n_pcos i, normal 6 2 n_pcos i,
     normal 105 15 n_pcos i, normal 200 40 n_pcos i])
  let X := healthy_data ++ pcos_data
  let y := List.replicate n_healthy 0 ++ List.replicate n_pcos 1
  (X, y, pcosFeatureNames)

/-- joblib.dump obj filename on an abstract file store. -/
def joblib_dump {α : Type} (fs : String → Option α) (obj : α) (name : String) :
    String → Option α :=
  fun n => if n = name then some obj else fs n

/-- The three joblib.dump calls at the end of train_and_evaluate_model
in train_model.py. -/
def train_and_evaluate_model_saves {α : Type} (fs : String → Option α)
    (best_model scaler feature_names : α) : String → Option α :=
  joblib_dump (joblib_dump (joblib_dump fs best_model ("pcos_model.pkl"))
      scaler ("pcos_scaler.pkl"))
    feature_names ("feature_names.pkl")

/-- The three joblib.dump calls at the end of train_lifestyle_model
in train_lifestyle_model.py. -/
def train_lifestyle_model_saves {α : Type} (fs : String → Option α)
    (model scaler feature_names : α) : String → Option α :=
  joblib_dump (joblib_dump (joblib_dump fs model ("lifestyle_pcos_model.pkl"))
      scaler ("lifestyle_scaler.pkl"))
    feature_names ("lifestyle_features.pkl")

/-- The three joblib.load calls for the clinical model at the top of app.py. -/
def appLoadClinical {α : Type} (fs : String → Option α) :
    Option α × Option α × Option α :=
  (fs ("pcos_model.pkl"), fs ("pcos_scaler.pkl"), fs ("feature_names.pkl"))

/-- The three joblib.load calls for the lifestyle model at the top of app.py. -/
def appLoadLifestyle {α : Type} (fs : String → Option α) :
    Option α × Option α × Option α :=
  (fs ("lifestyle_pcos_model.pkl"), fs ("lifestyle_scaler.pkl"), fs ("lifestyle_features.pkl"))

/-- Filenames written by train_model.py, in dump order. -/
def trainModelDumpFiles : List String :=
  ["pcos_model.pkl", "pcos_scaler.pkl", "feature_names.pkl"]

/-- Filenames read for the clinical model by app.py, in load order. -/
def appClinicalLoadFiles : List String :=
  ["pcos_model.pkl", "pcos_scaler.pkl", "feature_names.pkl"]

/-- Filenames written by train_lifestyle_model.py, in dump order. -/
def trainLifestyleDumpFiles : List String :=
  ["lifestyle_pcos_model.pkl", "lifestyle_scaler.pkl", "lifestyle_features.pkl"]

/-- Filenames read for the lifestyle model by app.py, in load order. -/
def appLifestyleLoadFiles : List String :=
  ["lifestyle_pcos_model.pkl", "lifestyle_scaler.pkl", "lifestyle_features.pkl"]

/-- The SQL texts register may execute. -/
def registerSqlTexts : List String :=
  [selectUserIdByEmailSql, introUsernameColSql, introAgeColSql,
   insertUsers5Sql, insertUsers4Sql, insertUsers3Sql]

/-- The SQL texts predict may execute. -/
def predictSqlTexts : List String := [insertPredictionSql]

/-- The SQL texts save_symptom_log may execute. -/
def symptomSqlTexts : List String := [insertSymptomLogSql]

/- Concrete states and inputs used by counterexamples and witnesses. -/

/-- A working database whose predictions table has the expected columns. -/
def dbOk : Db :=
  { connOk := true, users := [], hasUsernameCol := false, hasAgeCol := false,
    hasLastLoginCol := false,
    predictionsCols := ["id", "user_id", "prediction_result", "probability",
                        "risk_level", "input_data", "created_at"],
    predictions := [], lifestyle_predictions := [], nextId := 1 }

/-- A reachable database whose predictions table lacks prediction_result. -/
def dbNoPredCol : Db :=
  { connOk := true, users := [], hasUsernameCol := false, hasAgeCol := false,
    hasLastLoginCol := false, predictionsCols := ["id"],
    predictions := [], lifestyle_predictions := [], nextId := 1 }

/-- A database with one registered user. -/
def dbOneUser : Db :=
  { connOk := true,
    users := [{ id := 1, email := "u@x.com", password_hash := "hashed-pw",
                full_name := "U" }],
    hasUsernameCol := false, hasAgeCol := false, hasLastLoginCol := false,
    predictionsCols := ["id", "prediction_result"], predictions := [],
    lifestyle_predictions := [], nextId := 2 }

/-- A database with one user whose stored email is the empty string. -/
def dbEmptyEmailUser : Db :=
  { connOk := true,
    users := [{ id := 1, email := "", password_hash := "hashed-pw",
                full_name := "E" }],
    hasUsernameCol := false, hasAgeCol := false, hasLastLoginCol := false,
    predictionsCols := ["id", "prediction_result"], predictions := [],
    lifestyle_predictions := [], nextId := 2 }

/-- The identity scaler used by concrete instances. -/
def scalId : Scaler := { transform := fun v => v }

/-- A classifier that predicts class 0 with equal class probabilities. -/
def clfA : Classifier :=
  { predict := fun _ => 0, predict_proba := fun _ => (1 / 2, 1 / 2),
    feature_importances := [] }

/-- A classifier that agrees with clfA on predict_proba (and on the scaler
side on transform) but predicts class 1. -/
def clfB : Classifier :=
  { predict := fun _ => 1, predict_proba := fun _ => (1 / 2, 1 / 2),
    feature_importances := [] }

/-- A concrete clinical request supplying all eight features. -/
def req8 : List (String × Rat) :=
  [("Age", 25), ("BMI", 22), ("Insulin", 10), ("Testosterone", 30),
   ("LH", 5), ("FSH", 7), ("Glucose", 85), ("Cholesterol", 170)]

/-- The lifestyle feature-name list of train_lifestyle_model.py. -/
def lifestyleFeatureNames : List String :=
  ["Age", "BMI", "CycleRegularity", "CycleLength", "Hirsutism", "Acne",
   "HairLoss", "WeightGainDifficulty", "FamilyHistory", "StressLevel",
   "ExerciseFrequency", "SleepQuality"]

/-- A lifestyle request with all twelve features plus height and weight. -/
def lreqHW : List (String × Rat) :=
  [("Age", 30), ("BMI", 32), ("CycleRegularity", 2), ("CycleLength", 60),
   ("Hirsutism", 3), ("Acne", 2), ("HairLoss", 2), ("WeightGainDifficulty", 2),
   ("FamilyHistory", 1), ("StressLevel", 8), ("ExerciseFrequency", 1),
   ("SleepQuality", 4), ("height", 160), ("weight", 60)]

/-- A lifestyle request with the twelve features and no height/weight. -/
def lreqPlain : List (String × Rat) :=
  [("Age", 25), ("BMI", 22), ("CycleRegularity", 0), ("CycleLength", 28),
   ("Hirsutism", 0), ("Acne", 0), ("HairLoss", 0), ("WeightGainDifficulty", 0),
   ("FamilyHistory", 0), ("StressLevel", 3), ("ExerciseFrequency", 5),
   ("SleepQuality", 8)]

/-- A loaded lifestyle state built from clfA. -/
def lstA : LifestyleState :=
  { lifestyle_model := some clfA, lifestyle_scaler := some scalId,
    lifestyle_features := some lifestyleFeatureNames }

/-- A loaded clinical state built from clfA. -/
def cstA : ClinicalState :=
  { model := some clfA, scaler := some scalId, feature_names := some pcosFeatureNames }

/-- A loaded clinical state built from clfB. -/
def cstB : ClinicalState :=
  { model := some clfB, scaler := some scalId, feature_names := some pcosFeatureNames }

/-- A concrete stand-in for generate_password_hash. -/
def gphW (p : String) : String := ("pbkdf2-sha256:") ++ p

/-- A concrete stand-in for check_password_hash that accepts everything. -/
def chkTrue (hash pw : String) : Bool := (hash == hash) && (pw == pw)

/-- A valid registration/login request. -/
def reqVal : AuthReq :=
  { email := some ("a@x.com"), password := some ("secret1"),
    full_name := some ("Ada A"), username := none, age := none }

/-- A second valid request differing from reqVal only in field values. -/
def reqVal2 : AuthReq :=
  { email := some ("b@y.com"), password := some ("secret2"),
    full_name := some ("Bea B"), username := some ("bea"), age := some 30 }

/-- A login request for the registered user of dbOneUser. -/
def reqLogin : AuthReq :=
  { email := some ("u@x.com"), password := some ("pw-123"),
    full_name := none, username := none, age := none }

/-- A login request whose supplied email is the empty string. -/
def reqEmptyEmail : AuthReq :=
  { email := some (""), password := some ("pw-123"),
    full_name := none, username := none, age := none }

/-- A concrete symptom-log request. -/
def sreqW : SymptomLogReq :=
  { date := none, acne := some 1, hirsutism := some 2, hairLoss := none,
    fatigue := some 3, moodChanges := none, anxiety := some 1,
    sleepQuality := some 6, foodCravings := none, bloating := some 1,
    periodFlow := some ("Light"), periodActive := some true }

/-- The constant-zero sampler used to instantiate generate_synthetic_pcos_data. -/
def normalZero (_ _ : Rat) (_ _ : Nat) : Rat := 0

/-- The SQL texts register executes, as a function of the response status. -/
def registerTexts (db : Db) (status : Nat) : List String :=
  if status = 201 then
    [selectUserIdByEmailSql, introUsernameColSql, introAgeColSql, insertChosenSql db]
  else if status = 409 then [selectUserIdByEmailSql]
  else []

/-- The SQL texts predict executes, as a function of the response status. -/
def predictTexts (db : Db) (status : Nat) : List String :=
  if status = 200 then (if db.connOk then [insertPredictionSql] else []) else []

/-- The SQL texts login executes, as a function of the database schema and
the response status. -/
def loginTexts (db : Db) (status : Nat) : List String :=
  if status = 200 then
    (if db.hasLastLoginCol then [selectUserByEmailSql, introLastLoginColSql, updateLastLoginSql]
     else [selectUserByEmailSql, introLastLoginColSql])
  else if status = 401 then [selectUserByEmailSql]
  else []

/-- The SQL texts lifestyle_assessment executes, as a function of the
connection state, the response status and whether the request carries both
height and weight keys. -/
def lifestyleTexts (db : Db) (status : Nat) (hasProfile : Bool) : List String :=
  if status = 200 then
    (if db.connOk then
       (if hasProfile then [insertUserProfileSql, insertLifestylePredSql]
        else [insertLifestylePredSql])
     else [])
  else []

/-- The SQL texts login may execute. -/
def loginSqlTexts : List String :=
  [selectUserByEmailSql, introLastLoginColSql, updateLastLoginSql]

/-- The SQL texts the /auth/me handler may execute. -/
def meSqlTexts : List String := [selectMeSql]

/-- The SQL texts the two /predictions/history handlers may execute. -/
def historySqlTexts : List String := [introPredictionsColsSql, selectHistorySql]

/-- The SQL texts lifestyle_assessment may execute. -/
def lifestyleSqlTexts : List String := [insertUserProfileSql, insertLifestylePredSql]

/-- The SQL texts the lifestyle history handler may execute. -/
def lifestyleHistorySqlTexts : List String := [selectLifestyleHistorySql]

/-- A second clinical request with different field values. -/
def req8b : List (String × Rat) :=
  [("Age", 30), ("BMI", 28), ("Insulin", 18), ("Testosterone", 55),
   ("LH", 12), ("FSH", 6), ("Glucose", 105), ("Cholesterol", 200)]

/-- A second symptom-log request with all fields absent. -/
def sreqW2 : SymptomLogReq :=
  { date := none, acne := none, hirsutism := none, hairLoss := none,
    fatigue := none, moodChanges := none, anxiety := none, sleepQuality := none,
    foodCravings := none, bloating := none, periodFlow := none, periodActive := none }

/-- The feature values extracted from req8 in feature order. -/
def vals8 : List Rat := [25, 22, 10, 30, 5, 7, 85, 170]

/-- The feature values extracted from lreqPlain in feature order. -/
def lvals12 : List Rat := [25, 22, 0, 28, 0, 0, 0, 0, 0, 3, 5, 8]

/-- A second lifestyle request without height/weight, differing from
lreqPlain only in field values. -/
def lreqPlain2 : List (String × Rat) :=
  [("Age", 31), ("BMI", 27), ("CycleRegularity", 1), ("CycleLength", 40),
   ("Hirsutism", 1), ("Acne", 1), ("HairLoss", 1), ("WeightGainDifficulty", 1),
   ("FamilyHistory", 1), ("StressLevel", 7), ("ExerciseFrequency", 2),
   ("SleepQuality", 5)]

/-- A classifier definitionally equal to clfA, declared separately. -/
def clfA2 : Classifier :=
  { predict := fun _ => 0, predict_proba := fun _ => (1 / 2, 1 / 2),
    feature_importances := [] }

/-- A scaler definitionally equal to scalId, declared separately. -/
def scalId2 : Scaler := { transform := fun v => v }

/-- The text of the INSERT register chooses matches insertChosenSql. -/
theorem registerInsertStmt_text (db : Db) (gph : String → String) (req : AuthReq) :
    (registerInsertStmt db gph req).text = insertChosenSql db := by
  unfold registerInsertStmt insertChosenSql
  cases hu : db.hasUsernameCol <;> cases ha : db.hasAgeCol <;> simp [hu, ha]

/-- The INSERT register chooses is always an insert statement. -/
theorem registerInsertStmt_kind (db : Db) (gph : String → String) (req : AuthReq) :
    (registerInsertStmt db gph req).kind = SqlKind.insert := by
  unfold registerInsertStmt
  cases hu : db.hasUsernameCol <;> cases ha : db.hasAgeCol <;> simp [hu, ha]

/-- The SQL texts register emits are a function of the database schema and
the response status alone. -/
theorem register_texts_eq (db : Db) (gph : String → String) (now : Nat) (req : AuthReq) :
    sqlTextsOf (App.register db gph now req).2 =
      registerTexts db (App.register db gph now req).1.1 := by
  unfold App.register
  cases h1 : (!(truthy req.email) || !(truthy req.password)) with
  | true => simp [registerTexts, sqlTextsOf]
  | false =>
    by_cases h2 : (req.password.getD ("")).length < 6
    · simp [h2, registerTexts, sqlTextsOf]
    · cases h3 : db.connOk with
      | false => simp [h2, h3, registerTexts, sqlTextsOf]
      | true =>
        cases h4 : db.users.any (fun u => u.email == req.email.getD ("")) with
        | true => simp [h2, h3, h4, registerTexts, sqlTextsOf]
        | false =>
          simp [h2, h3, h4, registerTexts, sqlTextsOf, registerInsertStmt_text]

/-- The trace of a successful registration. -/
theorem register_trace_201 (db : Db) (gph : String → String) (now : Nat) (req : AuthReq)
    (h : (App.register db gph now req).1.1 = 201) :
    (App.register db gph now req).2 =
      [DbEvent.exec (SqlStmt.mk SqlKind.select selectUserIdByEmailSql [Param.s (req.email.getD (""))]),
       DbEvent.exec (SqlStmt.mk SqlKind.select introUsernameColSql []),
       DbEvent.exec (SqlStmt.mk SqlKind.select introAgeColSql []),
       DbEvent.exec (registerInsertStmt db gph req),
       DbEvent.commit] := by
  unfold App.register at h ⊢
  cases h1 : (!(truthy req.email) || !(truthy req.password)) with
  | true => simp [h1] at h
  | false =>
    by_cases h2 : (req.password.getD ("")).length < 6
    · simp [h1, h2] at h
    · cases h3 : db.connOk with
      | false => simp [h1, h2, h3] at h
      | true =>
        cases h4 : db.users.any (fun u => u.email == req.email.getD ("")) with
        | true => simp [h1, h2, h3, h4] at h
        | false => simp [h1, h2, h3, h4]

/-- Every statement register executes is one of four parameterized
statements whose texts are fixed literals. -/
theorem register_trace_sub (db : Db) (gph : String → String) (now : Nat) (req : AuthReq) :
    ∀ s : SqlStmt, DbEvent.exec s ∈ (App.register db gph now req).2 →
      s = SqlStmt.mk SqlKind.select selectUserIdByEmailSql [Param.s (req.email.getD (""))] ∨
      s = SqlStmt.mk SqlKind.select introUsernameColSql [] ∨
      s = SqlStmt.mk SqlKind.select introAgeColSql [] ∨
      s = registerInsertStmt db gph req := by
  intro s hs
  unfold App.register at hs
  cases h1 : (!(truthy req.email) || !(truthy req.password)) with
  | true => simp [h1] at hs
  | false =>
    by_cases h2 : (req.password.getD ("")).length < 6
    · simp [h1, h2] at hs
    · cases h3 : db.connOk with
      | false => simp [h1, h2, h3] at hs
      | true =>
        cases h4 : db.users.any (fun u => u.email == req.email.getD ("")) with
        | true =>
          simp [h1, h2, h3, h4] at hs
          exact Or.inl hs
        | false =>
          simp [h1, h2, h3, h4] at hs
          tauto

/-- The SQL texts predict emits are a function of the database connection
state and the response status alone. -/
theorem predict_texts_eq (st : ClinicalState) (uid : Nat) (data : List (String × Rat))
    (db : Db) (sv : Bool) :
    sqlTextsOf (App.predict st uid data db sv).2 =
      predictTexts db (App.predict st uid data db sv).1.1 := by
  unfold App.predict
  cases hm : st.model with
  | none => simp [predictTexts, sqlTextsOf]
  | some clf =>
    cases hs : st.scaler with
    | none => simp [predictTexts, sqlTextsOf]
    | some sc =>
      cases hd : data.isEmpty with
      | true => simp [hd, predictTexts, sqlTextsOf]
      | false =>
        cases hex : extractFeatures data (st.feature_names.getD []) with
        | error m => simp [hd, hex, predictTexts, sqlTextsOf]
        | ok vals =>
          cases hc : db.connOk with
          | false => simp [hd, hex, hc, predictTexts, sqlTextsOf]
          | true => cases sv <;> simp [hd, hex, hc, predictTexts, sqlTextsOf]

/-- The SQL texts save_symptom_log emits depend only on the connection
state of the database. -/
theorem symptom_texts_eq (db : Db) (today : String) (uid : Nat) (req : SymptomLogReq) :
    sqlTextsOf (App.save_symptom_log db today uid req).2 =
      (if db.connOk then [insertSymptomLogSql] else []) := by
  unfold App.save_symptom_log
  cases hc : db.connOk <;> simp [hc, sqlTextsOf]

/-- The response of predict does not depend on the save outcome. -/
theorem predict_fst_save (st : ClinicalState) (uid : Nat) (data : List (String × Rat))
    (db : Db) (s1 s2 : Bool) :
    (App.predict st uid data db s1).1 = (App.predict st uid data db s2).1 := by
  unfold App.predict
  cases hm : st.model with
  | none => rfl
  | some clf =>
    cases hs : st.scaler with
    | none => rfl
    | some sc =>
      cases hd : data.isEmpty with
      | true => simp [hd]
      | false =>
        cases hex : extractFeatures data (st.feature_names.getD []) with
        | error m => simp [hd, hex]
        | ok vals => simp [hd, hex]

/-- Half-even rounding of a quotient is at most the floor plus one. -/
theorem roundHalfEvenDiv_le (m d : Nat) : roundHalfEvenDiv m d ≤ m / d + 1 := by
  unfold roundHalfEvenDiv
  dsimp only
  split
  · exact Nat.le_succ _
  · split
    · exact Nat.le_refl _
    · split
      · exact Nat.le_succ _
      · exact Nat.le_refl _

/-- The 53-bit rounding, scaled by 2 ^ 52, exceeds its input by at most a
factor (2 ^ 52 + 1) / 2 ^ 52. -/
theorem round53_le (m : Nat) :
    (round53 m).1 * 2 ^ (round53 m).2 * 2 ^ 52 ≤ m * (2 ^ 52 + 1) := by
  unfold round53
  dsimp only
  by_cases hb : Nat.log2 m + 1 ≤ 53
  · rw [if_pos hb]
    dsimp only
    calc m * 2 ^ 0 * 2 ^ 52 = m * 2 ^ 52 := by ring
    _ ≤ m * (2 ^ 52 + 1) := Nat.mul_le_mul_left m (by omega)
  · rw [if_neg hb]
    dsimp only
    have hlog : 53 ≤ Nat.log2 m := by omega
    have hm0 : m ≠ 0 := by
      intro h0
      rw [h0] at hlog
      simp [Nat.log2] at hlog
    have hpow : 2 ^ (Nat.log2 m + 1 - 53) * 2 ^ 52 ≤ m := by
      have h1 : 2 ^ Nat.log2 m ≤ m := Nat.log2_self_le hm0
      have h2 : Nat.log2 m + 1 - 53 + 52 = Nat.log2 m := by omega
      calc 2 ^ (Nat.log2 m + 1 - 53) * 2 ^ 52 = 2 ^ (Nat.log2 m + 1 - 53 + 52) :=
            (pow_add 2 _ 52).symm
      _ = 2 ^ Nat.log2 m := by rw [h2]
      _ ≤ m := h1
    have hq : roundHalfEvenDiv m (2 ^ (Nat.log2 m + 1 - 53)) * 2 ^ (Nat.log2 m + 1 - 53) ≤
        m + 2 ^ (Nat.log2 m + 1 - 53) := by
      calc roundHalfEvenDiv m (2 ^ (Nat.log2 m + 1 - 53)) * 2 ^ (Nat.log2 m + 1 - 53)
          ≤ (m / 2 ^ (Nat.log2 m + 1 - 53) + 1) * 2 ^ (Nat.log2 m + 1 - 53) :=
            Nat.mul_le_mul_right _ (roundHalfEvenDiv_le m _)
      _ = m / 2 ^ (Nat.log2 m + 1 - 53) * 2 ^ (Nat.log2 m + 1 - 53) +
            2 ^ (Nat.log2 m + 1 - 53) := by ring
      _ ≤ m + 2 ^ (Nat.log2 m + 1 - 53) := by
            have := Nat.div_mul_le_self m (2 ^ (Nat.log2 m + 1 - 53))
            omega
    calc roundHalfEvenDiv m (2 ^ (Nat.log2 m + 1 - 53)) * 2 ^ (Nat.log2 m + 1 - 53) * 2 ^ 52
        ≤ (m + 2 ^ (Nat.log2 m + 1 - 53)) * 2 ^ 52 := Nat.mul_le_mul_right _ hq
    _ = m * 2 ^ 52 + 2 ^ (Nat.log2 m + 1 - 53) * 2 ^ 52 := by ring
    _ ≤ m * 2 ^ 52 + m := by omega
    _ = m * (2 ^ 52 + 1) := by ring

/-- The modelled int(n * 0.7) never exceeds n. -/
theorem pyIntMul07_le (n : Nat) : pyIntMul07 n ≤ n := by
  unfold pyIntMul07
  dsimp only
  have hA := round53_le n
  have hB := round53_le ((round53 n).1 * float07num)
  have hpos : 0 < (2 : Nat) ^ 52 := by positivity
  refine Nat.lt_succ_iff.mp ((Nat.div_lt_iff_lt_mul hpos).mpr ?_)
  have key : (round53 ((round53 n).1 * float07num)).1 *
      2 ^ ((round53 n).2 + (round53 ((round53 n).1 * float07num)).2) * 2 ^ 104 ≤
      n * ((2 ^ 52 + 1) * (2 ^ 52 + 1) * float07num) := by
    calc (round53 ((round53 n).1 * float07num)).1 *
        2 ^ ((round53 n).2 + (round53 ((round53 n).1 * float07num)).2) * 2 ^ 104
        = ((round53 ((round53 n).1 * float07num)).1 *
            2 ^ (round53 ((round53 n).1 * float07num)).2 * 2 ^ 52) *
          (2 ^ (round53 n).2 * 2 ^ 52) := by rw [pow_add]; ring
    _ ≤ ((round53 n).1 * float07num * (2 ^ 52 + 1)) * (2 ^ (round53 n).2 * 2 ^ 52) :=
          Nat.mul_le_mul_right _ hB
    _ = ((round53 n).1 * 2 ^ (round53 n).2 * 2 ^ 52) * (float07num * (2 ^ 52 + 1)) := by ring
    _ ≤ (n * (2 ^ 52 + 1)) * (float07num * (2 ^ 52 + 1)) := Nat.mul_le_mul_right _ hA
    _ = n * ((2 ^ 52 + 1) * (2 ^ 52 + 1) * float07num) := by ring
  rcases Nat.eq_zero_or_pos n with h0 | hpos1
  · subst h0
    simp only [Nat.zero_mul] at key
    have hz : (round53 ((round53 0).1 * float07num)).1 *
        2 ^ ((round53 0).2 + (round53 ((round53 0).1 * float07num)).2) = 0 := by
      rcases Nat.mul_eq_zero.mp (Nat.le_zero.mp key) with hx | hx
      · exact hx
      · exact absurd hx (by positivity)
    rw [hz]
    positivity
  · by_contra hge
    push_neg at hge
    have h1 : (n + 1) * 2 ^ 52 * 2 ^ 104 ≤
        (round53 ((round53 n).1 * float07num)).1 *
          2 ^ ((round53 n).2 + (round53 ((round53 n).1 * float07num)).2) * 2 ^ 104 :=
      Nat.mul_le_mul_right _ hge
    have h2 : (n + 1) * 2 ^ 156 ≤ n * ((2 ^ 52 + 1) * (2 ^ 52 + 1) * float07num) := by
      calc (n + 1) * 2 ^ 156 = (n + 1) * 2 ^ 52 * 2 ^ 104 := by ring
      _ ≤ _ := le_trans h1 key
    have h4 : n * ((2 ^ 52 + 1) * (2 ^ 52 + 1) * float07num) + n ≤ n * 2 ^ 156 := by
      calc n * ((2 ^ 52 + 1) * (2 ^ 52 + 1) * float07num) + n
          = n * ((2 ^ 52 + 1) * (2 ^ 52 + 1) * float07num + 1) := by ring
      _ ≤ n * 2 ^ 156 := Nat.mul_le_mul_left n (by norm_num [float07num])
    norm_num at h2 h4
    omega

/-- The SQL texts login emits are a function of the database schema and
the response status alone. -/
theorem login_texts_eq (db : Db) (check : String → String → Bool) (now : Nat)
    (req : AuthReq) :
    sqlTextsOf (App.login db check now req).2 =
      loginTexts db (App.login db check now req).1.1 := by
  unfold App.login
  cases h1 : (!(truthy req.email) || !(truthy req.password)) with
  | true => simp [loginTexts, sqlTextsOf]
  | false =>
    cases h3 : db.connOk with
    | false => simp [h3, loginTexts, sqlTextsOf]
    | true =>
      cases hfind : db.users.find? (fun u => u.email == req.email.getD ("")) with
      | none => simp [h3, hfind, loginTexts, sqlTextsOf]
      | some u =>
        cases hchk : check u.password_hash (req.password.getD ("")) with
        | false => simp [h3, hfind, hchk, loginTexts, sqlTextsOf]
        | true =>
          cases hll : db.hasLastLoginCol <;>
            simp [h3, hfind, hchk, hll, loginTexts, sqlTextsOf]

/-- The SQL texts lifestyle_assessment emits are a function of the
connection state, the response status and the height/weight key presence
alone. -/
theorem lifestyle_texts_eq (lst : LifestyleState) (uid : Nat)
    (data : List (String × Rat)) (db : Db) (sv : Bool) :
    sqlTextsOf (App.lifestyle_assessment lst uid data db sv).2 =
      lifestyleTexts db (App.lifestyle_assessment lst uid data db sv).1.1
        ((lookupField data ("height")).isSome && (lookupField data ("weight")).isSome) := by
  unfold App.lifestyle_assessment
  cases hm : lst.lifestyle_model with
  | none => simp [lifestyleTexts, sqlTextsOf]
  | some clf =>
    cases hs : lst.lifestyle_scaler with
    | none => simp [lifestyleTexts, sqlTextsOf]
    | some sc =>
      cases hex : extractFeatures data (lst.lifestyle_features.getD []) with
      | error m => simp [hex, lifestyleTexts, sqlTextsOf]
      | ok vals =>
        cases hc : db.connOk with
        | false => simp [hex, hc, lifestyleTexts, sqlTextsOf]
        | true =>
          cases hpw : ((lookupField data ("height")).isSome &&
              (lookupField data ("weight")).isSome) with
          | false => cases sv <;> simp [hex, hc, hpw, lifestyleTexts, sqlTextsOf]
          | true => cases sv <;> simp [hex, hc, hpw, lifestyleTexts, sqlTextsOf]

/-- C1 (amended): on identical model and database state, the endpoints /,
/auth/register, /auth/login, /auth/me, /predict, /features and /health of
app.py and app_with_auth.py agree on every input, and /predictions/history
agrees whenever the predictions table has the prediction_result column. -/
theorem C1_shared_endpoints_agree (db : Db) (uid : Nat)
    (hcol : db.predictionsCols.contains ("prediction_result") = true) :
    App.home = AppWithAuth.home ∧
    App.register = AppWithAuth.register ∧
    App.login = AppWithAuth.login ∧
    App.get_current_user = AppWithAuth.get_current_user ∧
    App.predict = AppWithAuth.predict ∧
    App.get_features = AppWithAuth.get_features ∧
    App.health_check = AppWithAuth.health_check ∧
    App.get_prediction_history db uid = AppWithAuth.get_prediction_history db uid := by
  refine ⟨rfl, rfl, rfl, rfl, rfl, rfl, rfl, ?_⟩
  unfold App.get_prediction_history AppWithAuth.get_prediction_history runHistorySelect
  cases hc : db.connOk with
  | false => simp
  | true =>
    have hmem : ("prediction_result") ∈ db.predictionsCols := by simpa using hcol
    simp [hmem]

/-- C1 witness: at a database whose predictions table is well formed, the
two history handlers agree. -/
theorem C1_shared_endpoints_agree_witness :
    App.get_prediction_history dbOk 1 = AppWithAuth.get_prediction_history dbOk 1 :=
  (C1_shared_endpoints_agree dbOk 1 (by decide)).2.2.2.2.2.2.2

/-- C1 counterexample: at a database state whose predictions table lacks
the prediction_result column, app.py answers 200 with an empty list while
app_with_auth.py answers 500 with an error, so the two entry points do not
return the same status code and body on every endpoint. -/
theorem C1_counterexample_history_diverges :
    App.get_prediction_history dbNoPredCol 1 = (200, HistoryResp.ok []) ∧
    AppWithAuth.get_prediction_history dbNoPredCol 1 =
      (500, HistoryResp.error (("Failed to get history: ") ++ ("column does not exist"))) ∧
    App.get_prediction_history dbNoPredCol 1 ≠ AppWithAuth.get_prediction_history dbNoPredCol 1 := by
  decide

/-- C2 (amended): the responses of /predict and /lifestyle/assess are
computed from the loaded scikit-learn objects through transform on the
scaler and predict and predict_proba on the model, plus the
feature_importances attribute in /lifestyle/assess: two loaded states
agreeing on those members produce identical responses. -/
theorem C2_model_interface_determines_response
    (s1 s2 : Scaler) (c1 c2 : Classifier) (fns lfns : Option (List String))
    (ht : s1.transform = s2.transform)
    (hp : c1.predict = c2.predict)
    (hq : c1.predict_proba = c2.predict_proba)
    (hf : c1.feature_importances = c2.feature_importances) :
    (∀ uid data db sv,
        App.predict (ClinicalState.mk (some c1) (some s1) fns) uid data db sv =
        App.predict (ClinicalState.mk (some c2) (some s2) fns) uid data db sv) ∧
    (∀ uid data db sv,
        App.lifestyle_assessment (LifestyleState.mk (some c1) (some s1) lfns) uid data db sv =
        App.lifestyle_assessment (LifestyleState.mk (some c2) (some s2) lfns) uid data db sv) := by
  cases s1 with
  | mk t1 =>
    cases s2 with
    | mk t2 =>
      cases c1 with
      | mk p1 q1 f1 =>
        cases c2 with
        | mk p2 q2 f2 =>
          dsimp only at ht hp hq hf
          subst ht; subst hp; subst hq; subst hf
          exact ⟨fun _ _ _ _ => rfl, fun _ _ _ _ => rfl⟩

/-- C2 witness: two separately declared but member-equal loaded states give
the same /predict response. -/
theorem C2_model_interface_determines_response_witness :
    App.predict (ClinicalState.mk (some clfA) (some scalId) (some pcosFeatureNames)) 1 req8 dbOk true =
    App.predict (ClinicalState.mk (some clfA2) (some scalId2) (some pcosFeatureNames)) 1 req8 dbOk true :=
  (C2_model_interface_determines_response scalId scalId2 clfA clfA2
    (some pcosFeatureNames) (some lifestyleFeatureNames) rfl rfl rfl rfl).1 1 req8 dbOk true

/-- C2 counterexample: two loaded model objects that agree on transform and
predict_proba but differ on predict produce different /predict responses,
so the response is not computed from transform and predict_proba alone. -/
theorem C2_counterexample_predict_contributes :
    scalId.transform = scalId.transform ∧
    clfA.predict_proba = clfB.predict_proba ∧
    (App.predict cstA 1 req8 dbOk true).1 ≠ (App.predict cstB 1 req8 dbOk true).1 :=
  ⟨rfl, rfl, by decide⟩

/-- C3 (amended): the commits issued by the request handlers register,
login, predict and save_symptom_log, and by lifestyle_assessment when the
request carries no height/weight profile data, each cover exactly one
preceding INSERT/UPDATE statement; init_db (five CREATEs before one
commit) and lifestyle_assessment with profile data (two INSERTs before one
commit) are the exceptions. -/
theorem C3_single_statement_commits (db : Db) (gph : String → String)
    (check : String → String → Bool) (now : Nat) (areq : AuthReq)
    (cst : ClinicalState) (lst : LifestyleState) (uid : Nat)
    (pdata ldata : List (String × Rat)) (sreq : SymptomLogReq)
    (sv : Bool) (today : String)
    (hHW : ((lookupField ldata ("height")).isSome &&
            (lookupField ldata ("weight")).isSome) = false) :
    singleStmtCommits (App.register db gph now areq).2 = true ∧
    singleStmtCommits (App.login db check now areq).2 = true ∧
    singleStmtCommits (App.predict cst uid pdata db sv).2 = true ∧
    singleStmtCommits (App.save_symptom_log db today uid sreq).2 = true ∧
    singleStmtCommits (App.lifestyle_assessment lst uid ldata db sv).2 = true := by
  refine ⟨?_, ?_, ?_, ?_, ?_⟩
  · unfold App.register
    cases h1 : (!(truthy areq.email) || !(truthy areq.password)) with
    | true => simp [singleStmtCommits, singleStmtCommitsAux]
    | false =>
      by_cases h2 : (areq.password.getD ("")).length < 6
      · simp [h2, singleStmtCommits, singleStmtCommitsAux]
      · cases h3 : db.connOk with
        | false => simp [h2, h3, singleStmtCommits, singleStmtCommitsAux]
        | true =>
          cases h4 : db.users.any (fun u => u.email == areq.email.getD ("")) with
          | true => simp [h2, h3, h4, singleStmtCommits, singleStmtCommitsAux, isWrite]
          | false =>
            simp [h2, h3, h4, singleStmtCommits, singleStmtCommitsAux, isWrite,
                  registerInsertStmt_kind]
  · unfold App.login
    cases h1 : (!(truthy areq.email) || !(truthy areq.password)) with
    | true => simp [singleStmtCommits, singleStmtCommitsAux]
    | false =>
      cases h3 : db.connOk with
      | false => simp [h3, singleStmtCommits, singleStmtCommitsAux]
      | true =>
        cases hfind : db.users.find? (fun u => u.email == areq.email.getD ("")) with
        | none => simp [h3, hfind, singleStmtCommits, singleStmtCommitsAux, isWrite]
        | some u =>
          cases hchk : check u.password_hash (areq.password.getD ("")) with
          | false => simp [h3, hfind, hchk, singleStmtCommits, singleStmtCommitsAux, isWrite]
          | true =>
            cases hll : db.hasLastLoginCol with
            | false => simp [h3, hfind, hchk, hll, singleStmtCommits, singleStmtCommitsAux, isWrite]
            | true => simp [h3, hfind, hchk, hll, singleStmtCommits, singleStmtCommitsAux, isWrite]
  · unfold App.predict
    cases hm : cst.model with
    | none => simp [singleStmtCommits, singleStmtCommitsAux]
    | some clf =>
      cases hs : cst.scaler with
      | none => simp [singleStmtCommits, singleStmtCommitsAux]
      | some sc =>
        cases hd : pdata.isEmpty with
        | true => simp [hd, singleStmtCommits, singleStmtCommitsAux]
        | false =>
          cases hex : extractFeatures pdata (cst.feature_names.getD []) with
          | error m => simp [hd, hex, singleStmtCommits, singleStmtCommitsAux]
          | ok vals =>
            cases hc : db.connOk with
            | false => simp [hd, hex, hc, singleStmtCommits, singleStmtCommitsAux]
            | true =>
              cases sv <;>
                simp [hd, hex, hc, singleStmtCommits, singleStmtCommitsAux, isWrite]
  · unfold App.save_symptom_log
    cases hc : db.connOk <;> simp [hc, singleStmtCommits, singleStmtCommitsAux, isWrite]
  · unfold App.lifestyle_assessment
    cases hm : lst.lifestyle_model with
    | none => simp [singleStmtCommits, singleStmtCommitsAux]
    | some clf =>
      cases hs : lst.lifestyle_scaler with
      | none => simp [singleStmtCommits, singleStmtCommitsAux]
      | some sc =>
        cases hex : extractFeatures ldata (lst.lifestyle_features.getD []) with
        | error m => simp [hex, singleStmtCommits, singleStmtCommitsAux]
        | ok vals =>
          cases hc : db.connOk with
          | false => simp [hex, hc, singleStmtCommits, singleStmtCommitsAux]
          | true =>
            cases sv <;>
              simp [hex, hc, hHW, singleStmtCommits, singleStmtCommitsAux, isWrite]

/-- C3 witness: a concrete registration commit covering exactly one INSERT. -/
theorem C3_single_statement_commits_witness :
    singleStmtCommits (App.register dbOk gphW 0 reqVal).2 = true :=
  (C3_single_statement_commits dbOk gphW chkTrue 0 reqVal cstA lstA 1 req8 lreqPlain
    sreqW true ("2026-10-12") (by decide)).1

/-- C3 counterexample: init_db commits five CREATE TABLE statements at
once, and lifestyle_assessment with height/weight present commits two
INSERTs at once, so not every commit covers exactly one statement. -/
theorem C3_counterexample_batched_commits :
    singleStmtCommits (App.init_db dbOk).2 = false ∧
    singleStmtCommits (App.lifestyle_assessment lstA 1 lreqHW dbOk true).2 = false := by
  decide

/-- C4: every SQL statement executed by a request handler — register,
login, /auth/me, predict, both /predictions/history variants,
lifestyle_assessment, save_symptom_log and the lifestyle history — has a
text drawn from a fixed set of literals, request values travel only in the
parameter lists, and two requests of the same shape (same status, and for
lifestyle the same height/weight key presence) against the same database
execute identical SQL text sequences.  The remaining handlers of
app_with_auth.py are verbatim copies of the app.py ones covered here. -/
theorem C4_fixed_sql_texts (db : Db) (gph : String → String)
    (check : String → String → Bool) (now : Nat)
    (r1 r2 l1 l2 : AuthReq) (st : ClinicalState) (lst : LifestyleState)
    (u1 u2 : Nat) (d1 d2 e1 e2 : List (String × Rat)) (sv1 sv2 : Bool)
    (q1 q2 : SymptomLogReq) (today : String)
    (hreg : (App.register db gph now r1).1.1 = (App.register db gph now r2).1.1)
    (hlog : (App.login db check now l1).1.1 = (App.login db check now l2).1.1)
    (hpred : (App.predict st u1 d1 db sv1).1.1 = (App.predict st u2 d2 db sv2).1.1)
    (hlife : (App.lifestyle_assessment lst u1 e1 db sv1).1.1 =
             (App.lifestyle_assessment lst u2 e2 db sv2).1.1)
    (hprof : ((lookupField e1 ("height")).isSome && (lookupField e1 ("weight")).isSome) =
             ((lookupField e2 ("height")).isSome && (lookupField e2 ("weight")).isSome)) :
    (∀ t ∈ sqlTextsOf (App.register db gph now r1).2, t ∈ registerSqlTexts) ∧
    (∀ t ∈ sqlTextsOf (App.login db check now l1).2, t ∈ loginSqlTexts) ∧
    (∀ t ∈ sqlTextsOf (App.predict st u1 d1 db sv1).2, t ∈ predictSqlTexts) ∧
    (∀ t ∈ sqlTextsOf (App.lifestyle_assessment lst u1 e1 db sv1).2, t ∈ lifestyleSqlTexts) ∧
    (∀ t ∈ sqlTextsOf (App.save_symptom_log db today u1 q1).2, t ∈ symptomSqlTexts) ∧
    (∀ t ∈ sqlTextsOf (App.get_current_user_trace db u1), t ∈ meSqlTexts) ∧
    (∀ t ∈ sqlTextsOf (App.get_prediction_history_trace db u1), t ∈ historySqlTexts) ∧
    (∀ t ∈ sqlTextsOf (AppWithAuth.get_prediction_history_trace db u1), t ∈ historySqlTexts) ∧
    (∀ t ∈ sqlTextsOf (App.get_lifestyle_prediction_history db u1).2, t ∈ lifestyleHistorySqlTexts) ∧
    sqlTextsOf (App.register db gph now r1).2 = sqlTextsOf (App.register db gph now r2).2 ∧
    sqlTextsOf (App.login db check now l1).2 = sqlTextsOf (App.login db check now l2).2 ∧
    sqlTextsOf (App.predict st u1 d1 db sv1).2 = sqlTextsOf (App.predict st u2 d2 db sv2).2 ∧
    sqlTextsOf (App.lifestyle_assessment lst u1 e1 db sv1).2 =
      sqlTextsOf (App.lifestyle_assessment lst u2 e2 db sv2).2 ∧
    sqlTextsOf (App.save_symptom_log db today u1 q1).2 =
      sqlTextsOf (App.save_symptom_log db today u2 q2).2 ∧
    sqlTextsOf (App.get_current_user_trace db u1) =
      sqlTextsOf (App.get_current_user_trace db u2) ∧
    sqlTextsOf (App.get_prediction_history_trace db u1) =
      sqlTextsOf (App.get_prediction_history_trace db u2) ∧
    sqlTextsOf (AppWithAuth.get_prediction_history_trace db u1) =
      sqlTextsOf (AppWithAuth.get_prediction_history_trace db u2) ∧
    sqlTextsOf (App.get_lifestyle_prediction_history db u1).2 =
      sqlTextsOf (App.get_lifestyle_prediction_history db u2).2 := by
  refine ⟨?_, ?_, ?_, ?_, ?_, ?_, ?_, ?_, ?_, ?_, ?_, ?_, ?_, ?_, ?_, ?_, ?_, ?_⟩
  · intro t ht
    rw [register_texts_eq] at ht
    unfold registerTexts at ht
    split at ht
    · unfold insertChosenSql at ht
      split at ht
      · simp only [registerSqlTexts, List.mem_cons, List.mem_singleton,
          List.not_mem_nil] at ht ⊢
        tauto
      · split at ht <;>
          (simp only [registerSqlTexts, List.mem_cons, List.mem_singleton,
             List.not_mem_nil] at ht ⊢) <;> tauto
    · split at ht <;>
        (simp only [registerSqlTexts, List.mem_cons, List.mem_singleton,
           List.not_mem_nil] at ht ⊢) <;> tauto
  · intro t ht
    rw [login_texts_eq] at ht
    unfold loginTexts at ht
    split at ht
    · split at ht <;>
        (simp only [loginSqlTexts, List.mem_cons, List.mem_singleton,
           List.not_mem_nil] at ht ⊢) <;> tauto
    · split at ht <;>
        (simp only [loginSqlTexts, List.mem_cons, List.mem_singleton,
           List.not_mem_nil] at ht ⊢) <;> tauto
  · intro t ht
    rw [predict_texts_eq] at ht
    unfold predictTexts at ht
    split at ht
    · split at ht <;>
        (simp only [predictSqlTexts, List.mem_cons, List.mem_singleton,
           List.not_mem_nil] at ht ⊢) <;> tauto
    · simp at ht
  · intro t ht
    rw [lifestyle_texts_eq] at ht
    unfold lifestyleTexts at ht
    split at ht
    · split at ht
      · split at ht <;>
          (simp only [lifestyleSqlTexts, List.mem_cons, List.mem_singleton,
             List.not_mem_nil] at ht ⊢) <;> tauto
      · simp at ht
    · simp at ht
  · intro t ht
    rw [symptom_texts_eq] at ht
    split at ht <;>
      (simp only [symptomSqlTexts, List.mem_cons, List.mem_singleton,
         List.not_mem_nil] at ht ⊢) <;> tauto
  · intro t ht
    unfold App.get_current_user_trace at ht
    split at ht <;>
      (simp only [meSqlTexts, sqlTextsOf, List.filterMap_cons, List.filterMap_nil,
         List.mem_cons, List.mem_singleton, List.not_mem_nil] at ht ⊢) <;> tauto
  · intro t ht
    unfold App.get_prediction_history_trace at ht
    split at ht
    · simp [sqlTextsOf] at ht
    · split at ht <;>
        (simp only [historySqlTexts, sqlTextsOf, List.filterMap_cons, List.filterMap_nil,
           List.filterMap_append, List.mem_cons, List.mem_singleton,
           List.not_mem_nil, List.mem_append] at ht ⊢) <;> tauto
  · intro t ht
    unfold AppWithAuth.get_prediction_history_trace at ht
    split at ht <;>
      (simp only [historySqlTexts, sqlTextsOf, List.filterMap_cons, List.filterMap_nil,
         List.mem_cons, List.mem_singleton, List.not_mem_nil] at ht ⊢) <;> tauto
  · intro t ht
    unfold App.get_lifestyle_prediction_history at ht
    split at ht <;>
      (simp only [lifestyleHistorySqlTexts, sqlTextsOf, List.filterMap_cons,
         List.filterMap_nil, List.mem_cons, List.mem_singleton,
         List.not_mem_nil] at ht ⊢) <;> tauto
  · rw [register_texts_eq, register_texts_eq, hreg]
  · rw [login_texts_eq, login_texts_eq, hlog]
  · rw [predict_texts_eq, predict_texts_eq, hpred]
  · rw [lifestyle_texts_eq, lifestyle_texts_eq, hlife, hprof]
  · rw [symptom_texts_eq, symptom_texts_eq]
  · unfold App.get_current_user_trace
    split <;> simp [sqlTextsOf]
  · unfold App.get_prediction_history_trace
    split
    · rfl
    · split <;> simp [sqlTextsOf]
  · unfold AppWithAuth.get_prediction_history_trace
    split <;> simp [sqlTextsOf]
  · unfold App.get_lifestyle_prediction_history
    split <;> simp [sqlTextsOf]

/-- C4 witness: two registrations differing only in field values execute
the same SQL texts. -/
theorem C4_fixed_sql_texts_witness :
    sqlTextsOf (App.register dbOk gphW 0 reqVal).2 =
      sqlTextsOf (App.register dbOk gphW 0 reqVal2).2 :=
  (C4_fixed_sql_texts dbOk gphW chkTrue 0 reqVal reqVal2 reqLogin reqVal cstA lstA
    1 2 req8 req8b lreqPlain lreqPlain2 true false sreqW sreqW2 ("2026-10-12")
    (by decide) (by decide) (by decide) (by decide) (by decide)).2.2.2.2.2.2.2.2.2.1

/-- C5: a successful registration executes the two fixed, parameter-free
introspection queries and then the INSERT chosen by the runtime schema
facts: five columns when username and age both exist, four when only
username exists, and exactly (email, password_hash, full_name) otherwise. -/
theorem C5_register_introspection_choice (db : Db) (gph : String → String)
    (now : Nat) (req : AuthReq)
    (h : (App.register db gph now req).1.1 = 201) :
    (App.register db gph now req).2 =
      [DbEvent.exec (SqlStmt.mk SqlKind.select selectUserIdByEmailSql [Param.s (req.email.getD (""))]),
       DbEvent.exec (SqlStmt.mk SqlKind.select introUsernameColSql []),
       DbEvent.exec (SqlStmt.mk SqlKind.select introAgeColSql []),
       DbEvent.exec (registerInsertStmt db gph req),
       DbEvent.commit] ∧
    (db.hasUsernameCol = true → db.hasAgeCol = true →
       registerInsertStmt db gph req = SqlStmt.mk SqlKind.insert insertUsers5Sql
         [Param.s (req.email.getD ("")), Param.s (gph (req.password.getD (""))),
          Param.s (req.full_name.getD ("")), Param.s (registerUsername req), ageParam req.age]) ∧
    (db.hasUsernameCol = true → db.hasAgeCol = false →
       registerInsertStmt db gph req = SqlStmt.mk SqlKind.insert insertUsers4Sql
         [Param.s (req.email.getD ("")), Param.s (gph (req.password.getD (""))),
          Param.s (req.full_name.getD ("")), Param.s (registerUsername req)]) ∧
    (db.hasUsernameCol = false →
       registerInsertStmt db gph req = SqlStmt.mk SqlKind.insert insertUsers3Sql
         [Param.s (req.email.getD ("")), Param.s (gph (req.password.getD (""))),
          Param.s (req.full_name.getD (""))]) := by
  refine ⟨register_trace_201 db gph now req h, ?_, ?_, ?_⟩
  · intro hu ha
    unfold registerInsertStmt
    simp [hu, ha]
  · intro hu ha
    unfold registerInsertStmt
    simp [hu, ha]
  · intro hu
    unfold registerInsertStmt
    simp [hu]

/-- C5 witness: with neither extra column present, the concrete
registration inserts exactly email, password hash and full name. -/
theorem C5_register_introspection_choice_witness :
    registerInsertStmt dbOk gphW reqVal = SqlStmt.mk SqlKind.insert insertUsers3Sql
      [Param.s (reqVal.email.getD ("")), Param.s (gphW (reqVal.password.getD (""))),
       Param.s (reqVal.full_name.getD (""))] :=
  (C5_register_introspection_choice dbOk gphW 0 reqVal (by decide)).2.2.2 rfl

/-- C6 (amended): register hands the database only the password hash and
never the plaintext password, and login answers 200 with the HS256 JWT
(payload user_id, exp = now + 7 days) exactly when a users row with the
supplied email exists and the hash check validates; otherwise it answers
401 Invalid email or password, or 400 when email or password is absent or
empty. -/
theorem C6_hash_storage_and_login (db : Db) (gph : String → String)
    (check : String → String → Bool) (now : Nat) (req : AuthReq)
    (hconn : db.connOk = true)
    (hph : gph (req.password.getD ("")) ≠ req.password.getD (""))
    (he : req.email.getD ("") ≠ req.password.getD (""))
    (hf : req.full_name.getD ("") ≠ req.password.getD (""))
    (hu : registerUsername req ≠ req.password.getD ("")) :
    (∀ s : SqlStmt, DbEvent.exec s ∈ (App.register db gph now req).2 →
        Param.s (req.password.getD ("")) ∉ s.params) ∧
    ((App.register db gph now req).1.1 = 201 →
        DbEvent.exec (registerInsertStmt db gph req) ∈ (App.register db gph now req).2 ∧
        Param.s (gph (req.password.getD (""))) ∈ (registerInsertStmt db gph req).params) ∧
    ((truthy req.email = false ∨ truthy req.password = false) →
        (App.login db check now req).1 = (400, LoginResp.error ("Email and password are required"))) ∧
    (truthy req.email = true → truthy req.password = true →
        match db.users.find? (fun u => u.email == req.email.getD ("")) with
        | none => (App.login db check now req).1 = (401, LoginResp.error ("Invalid email or password"))
        | some u =>
          if check u.password_hash (req.password.getD ("")) then
            (App.login db check now req).1 =
              (200, LoginResp.ok ("Login successful") (jwtEncode u.id now) u.id u.email u.full_name)
          else
            (App.login db check now req).1 = (401, LoginResp.error ("Invalid email or password"))) := by
  refine ⟨?_, ?_, ?_, ?_⟩
  · intro s hs hmem
    rcases register_trace_sub db gph now req s hs with h1 | h1 | h1 | h1 <;> subst h1
    · simp at hmem
      exact he hmem.symm
    · simp at hmem
    · simp at hmem
    · unfold registerInsertStmt at hmem
      by_cases hcu : db.hasUsernameCol = true
      · by_cases hca : db.hasAgeCol = true
        · simp [hcu, hca] at hmem
          rcases hmem with hx | hx | hx | hx | hx
          · exact he hx.symm
          · exact hph hx.symm
          · exact hf hx.symm
          · exact hu hx.symm
          · cases hage : req.age with
            | none => simp [ageParam, hage] at hx
            | some a => simp [ageParam, hage] at hx
        · simp [hcu, hca] at hmem
          rcases hmem with hx | hx | hx | hx
          · exact he hx.symm
          · exact hph hx.symm
          · exact hf hx.symm
          · exact hu hx.symm
      · simp [hcu] at hmem
        rcases hmem with hx | hx | hx
        · exact he hx.symm
        · exact hph hx.symm
        · exact hf hx.symm
  · intro h201
    refine ⟨?_, ?_⟩
    · rw [register_trace_201 db gph now req h201]
      simp
    · unfold registerInsertStmt
      by_cases hcu : db.hasUsernameCol = true
      · by_cases hca : db.hasAgeCol = true
        · simp [hcu, hca]
        · simp [hcu, hca]
      · simp [hcu]
  · intro hfalsy
    unfold App.login
    rcases hfalsy with hx | hx <;> simp [hx]
  · intro he1 hp1
    unfold App.login
    simp only [he1, hp1, Bool.not_true, Bool.or_self, Bool.false_eq_true, if_false, hconn]
    cases hfind : db.users.find? (fun u => u.email == req.email.getD ("")) with
    | none => simp
    | some u =>
      cases hchk : check u.password_hash (req.password.getD ("")) with
      | false => simp [hchk]
      | true => simp [hchk]

/-- C6 witness: the concrete registered user logs in and receives the
seven-day HS256 token. -/
theorem C6_hash_storage_and_login_witness :
    (App.login dbOneUser chkTrue 5 reqLogin).1 =
      (200, LoginResp.ok ("Login successful") (jwtEncode 1 5) 1 ("u@x.com") ("U")) := by
  have h := C6_hash_storage_and_login dbOneUser gphW chkTrue 5 reqLogin rfl
    (by decide) (by decide) (by decide) (by decide)
  simpa using h.2.2.2 rfl rfl

/-- C6 counterexample: with a stored user whose email is the empty string
and a password check that validates, a login supplying that email returns
400, not the 200 or 401 the claim allows, because Python truthiness treats
the supplied empty string as missing. -/
theorem C6_counterexample_empty_email :
    (App.login dbEmptyEmailUser chkTrue 0 reqEmptyEmail).1 =
      (400, LoginResp.error ("Email and password are required")) ∧
    (App.login dbEmptyEmailUser chkTrue 0 reqEmptyEmail).1 ≠
      (200, LoginResp.ok ("Login successful") (jwtEncode 1 0) 1 ("") ("E")) ∧
    (App.login dbEmptyEmailUser chkTrue 0 reqEmptyEmail).1 ≠
      (401, LoginResp.error ("Invalid email or password")) := by
  decide

/-- C7: in /predict and /lifestyle/assess the reported risk_level is the
pure function of the PCOS class probability with thresholds 0.3 and 0.7,
and the reported confidence is the maximum class probability rounded to
three decimals. -/
theorem C7_risk_level_thresholds
    (sc : Scaler) (clf : Classifier) (fns lfns : List String) (uid : Nat)
    (data ldata : List (String × Rat)) (db : Db) (sv : Bool)
    (vals lvals : List Rat)
    (hne : data.isEmpty = false)
    (hex : extractFeatures data fns = Except.ok vals)
    (hlex : extractFeatures ldata lfns = Except.ok lvals) :
    (App.predict (ClinicalState.mk (some clf) (some sc) (some fns)) uid data db sv).1 =
      (200, PredictResp.ok (clf.predict (sc.transform vals))
        (round3 (clf.predict_proba (sc.transform vals)).2)
        (round3 (clf.predict_proba (sc.transform vals)).1)
        (riskLevelOf (clf.predict_proba (sc.transform vals)).2)
        (if clf.predict (sc.transform vals) == 1 then ("PCOS Likely") else ("Healthy"))
        (round3 (max (clf.predict_proba (sc.transform vals)).1 (clf.predict_proba (sc.transform vals)).2))
        data) ∧
    (App.lifestyle_assessment (LifestyleState.mk (some clf) (some sc) (some lfns)) uid ldata db sv).1 =
      (200, LifestyleResp.ok (clf.predict (sc.transform lvals))
        (round3 (clf.predict_proba (sc.transform lvals)).2)
        (round3 (clf.predict_proba (sc.transform lvals)).1)
        (riskLevelOf (clf.predict_proba (sc.transform lvals)).2)
        (if clf.predict (sc.transform lvals) == 1 then ("PCOS Risk Detected") else ("Low Risk"))
        (round3 (max (clf.predict_proba (sc.transform lvals)).1 (clf.predict_proba (sc.transform lvals)).2))
        ((lfns.zip clf.feature_importances).map
          (fun nf => (nf.1, ((lookupField ldata nf.1).getD 0, nf.2))))
        (generate_recommendations ldata (riskLevelOf (clf.predict_proba (sc.transform lvals)).2))
        ldata) ∧
    (∀ p : Rat,
        (riskLevelOf p = "Low" ↔ p < 3 / 10) ∧
        (riskLevelOf p = "Moderate" ↔ 3 / 10 ≤ p ∧ p < 7 / 10) ∧
        (riskLevelOf p = "High" ↔ 7 / 10 ≤ p)) := by
  refine ⟨?_, ?_, ?_⟩
  · unfold App.predict
    simp [hne, hex]
  · unfold App.lifestyle_assessment
    simp [hlex]
  · intro p
    unfold riskLevelOf
    by_cases h1 : p < 3 / 10
    · rw [if_pos h1]
      refine ⟨⟨fun _ => h1, fun _ => rfl⟩, ⟨?_, ?_⟩, ⟨?_, ?_⟩⟩
      · intro hx; exact absurd hx (by decide)
      · rintro ⟨hge, _⟩; exact absurd h1 (not_lt.mpr hge)
      · intro hx; exact absurd hx (by decide)
      · intro hge; linarith
    · by_cases h2 : p < 7 / 10
      · rw [if_neg h1, if_pos h2]
        refine ⟨⟨?_, ?_⟩, ⟨fun _ => ⟨le_of_not_lt h1, h2⟩, fun _ => rfl⟩, ⟨?_, ?_⟩⟩
        · intro hx; exact absurd hx (by decide)
        · intro hlt; exact absurd hlt h1
        · intro hx; exact absurd hx (by decide)
        · intro hge; linarith
      · rw [if_neg h1, if_neg h2]
        refine ⟨⟨?_, ?_⟩, ⟨?_, ?_⟩, ⟨fun _ => le_of_not_lt h2, fun _ => rfl⟩⟩
        · intro hx; exact absurd hx (by decide)
        · intro hlt; exact absurd hlt h1
        · intro hx; exact absurd hx (by decide)
        · rintro ⟨_, hlt⟩; exact absurd hlt h2

/-- C7 witness: the threshold characterization applied at probability 1/2. -/
theorem C7_risk_level_thresholds_witness :
    riskLevelOf (1 / 2) = "Moderate" ↔ 3 / 10 ≤ (1 / 2 : Rat) ∧ (1 / 2 : Rat) < 7 / 10 :=
  ((C7_risk_level_thresholds scalId clfA pcosFeatureNames lifestyleFeatureNames 1
      req8 lreqPlain dbOk true vals8 lvals12 (by decide) rfl rfl).2.2
    (1 / 2)).2.1

/-- C8: once a /predict request reaches the prediction step, the 200
response is the same whether the INSERT into predictions succeeds or not,
in both entry points (the save block swallows its exceptions). -/
theorem C8_response_independent_of_save (st : ClinicalState) (uid : Nat)
    (data : List (String × Rat)) (db : Db) (s1 s2 : Bool)
    (h : (App.predict st uid data db s1).1.1 = 200) :
    (App.predict st uid data db s1).1 = (App.predict st uid data db s2).1 ∧
    (AppWithAuth.predict st uid data db s1).1 = (AppWithAuth.predict st uid data db s2).1 :=
  ⟨predict_fst_save st uid data db s1 s2, predict_fst_save st uid data db s1 s2⟩

/-- C8 witness: the concrete prediction response is the same with and
without a successful save. -/
theorem C8_response_independent_of_save_witness :
    (App.predict cstA 1 req8 dbOk true).1 = (App.predict cstA 1 req8 dbOk false).1 :=
  (C8_response_independent_of_save cstA 1 req8 dbOk true false (by decide)).1

/-- C9: generate_synthetic_pcos_data n returns n rows of eight features,
the fixed feature-name list, and labels made of int(n * 0.7) zeros followed
by n - int(n * 0.7) ones, with int(n * 0.7) modelled by the exact binary64
computation pyIntMul07 that CPython performs. -/
theorem C9_synthetic_data_shape (normal : Rat → Rat → Nat → Nat → Rat) (n : Nat)
    (h : 1 ≤ n) :
    (generate_synthetic_pcos_data normal n).1.length = n ∧
    (∀ row ∈ (generate_synthetic_pcos_data normal n).1, row.length = 8) ∧
    (generate_synthetic_pcos_data normal n).2.2 = pcosFeatureNames ∧
    (generate_synthetic_pcos_data normal n).2.1 =
      List.replicate (pyIntMul07 n) 0 ++ List.replicate (n - pyIntMul07 n) 1 ∧
    ((generate_synthetic_pcos_data normal n).2.1).count 0 = pyIntMul07 n ∧
    ((generate_synthetic_pcos_data normal n).2.1).count 1 = n - pyIntMul07 n := by
  have hle : pyIntMul07 n ≤ n := pyIntMul07_le n
  refine ⟨?_, ?_, rfl, rfl, ?_, ?_⟩
  · unfold generate_synthetic_pcos_data
    simp only [List.length_append, List.length_map, List.length_range]
    omega
  · intro row hrow
    unfold generate_synthetic_pcos_data at hrow
    simp only [List.mem_append, List.mem_map, List.mem_range] at hrow
    rcases hrow with ⟨i, _, rfl⟩ | ⟨i, _, rfl⟩ <;> rfl
  · unfold generate_synthetic_pcos_data
    simp [List.count_append, List.count_replicate]
  · unfold generate_synthetic_pcos_data
    simp [List.count_append, List.count_replicate]

/-- C9 witness: ten samples split into seven healthy rows and three PCOS
rows. -/
theorem C9_synthetic_data_shape_witness :
    (generate_synthetic_pcos_data normalZero 10).1.length = 10 :=
  (C9_synthetic_data_shape normalZero 10 (by decide)).1

/-- C10: the filenames the training scripts dump are exactly the filenames
app.py loads, and loading after dumping returns the saved objects. -/
theorem C10_artifact_filename_roundtrip (α : Type) (fs : String → Option α)
    (m s f lm ls lf : α) :
    trainModelDumpFiles = appClinicalLoadFiles ∧
    trainLifestyleDumpFiles = appLifestyleLoadFiles ∧
    appLoadClinical (train_and_evaluate_model_saves fs m s f) = (some m, some s, some f) ∧
    appLoadLifestyle (train_lifestyle_model_saves fs lm ls lf) = (some lm, some ls, some lf) := by
  refine ⟨rfl, rfl, ?_, ?_⟩
  · unfold appLoadClinical train_and_evaluate_model_saves joblib_dump
    simp
  · unfold appLoadLifestyle train_lifestyle_model_saves joblib_dump
    simp
